import Mathlib

/-!
Verification development for the ANARI volume viewer (`src/viewer.cpp`).

The file shallowly embeds the structured-field construction and reactive
rebuild pipeline of the viewer: the startup scene setup
(`Application::setupWindows`, lines 258-402), the lookup-table-change
rebuild callback (`setUpdateLacLutCallback` lambda, lines 452-541) and
`Application::teardown` (lines 579-585), together with the reference
counting semantics of the rendering API they drive (object creation,
typed array creation, set-parameter, set-and-release-parameter,
commit-parameters, release).

External collaborators (`RAWReader`, `NiftiReader`, `LacReader`) and the
parts of the repository not present under `src/` are modelled from the
specification's contracts; every such definition carries a doc comment
saying so.
-/

namespace AVV

/-- Element type tags of the device arrays the viewer creates
(`ANARI_UFIXED8`, `ANARI_UFIXED16`, `ANARI_FLOAT32`). -/
inductive ElemType where
  | ufixed8
  | ufixed16
  | float32
deriving DecidableEq, Repr

/-- Pair of scalars, modelling `float2`-style ranges (`dataRange`,
`g_voxelRange`).  Scalar values are modelled as rationals: the pipeline
only copies them, it performs no floating-point arithmetic on them. -/
structure Float2 where
  x : Rat
  y : Rat
deriving DecidableEq, Repr

/-- Voxel storage handed to `anariNewArray3D`: exactly one of the three
typed buffers of a `StructuredField` (`dataUI8`, `dataUI16`, `dataF32`). -/
inductive ScalarData where
  | u8 (vals : List Nat)
  | u16 (vals : List Nat)
  | f32 (vals : List Rat)
deriving DecidableEq, Repr

/-- The `StructuredField` value produced by a voxel source, as used by
`viewer.cpp` (`data.dimX/dimY/dimZ`, `data.bytesPerCell`,
`data.dataUI8/dataUI16/dataF32`, `data.dataRange`).  The struct itself
lives in `FieldTypes.h`, outside `src/`; its shape is taken from these
uses and from the spec's data model. -/
structure StructuredField where
  dimX : Nat
  dimY : Nat
  dimZ : Nat
  bytesPerCell : Nat
  dataUI8 : List Nat
  dataUI16 : List Nat
  dataF32 : List Rat
  dataRange : Float2
deriving DecidableEq, Repr

/-- Default-constructed `StructuredField` (the value `AppState::sdata`
holds before any source is read). -/
def emptyField : StructuredField :=
  { dimX := 0, dimY := 0, dimZ := 0, bytesPerCell := 0,
    dataUI8 := [], dataUI16 := [], dataF32 := [], dataRange := ⟨0, 0⟩ }

/-!
Device-side handles are modelled as natural numbers; `0` plays the
role of the null handle (`nullptr`).
-/

/-- Color control point (r,g,b), modelling `anari::math::float3`. -/
abbrev Color3 := Rat × Rat × Rat

/-- Values a parameter of a device object can hold in this development:
an object handle, a string, a `FLOAT32_BOX1` range, or the value of an
uninitialized variable (`indeterminate`, see `buildFieldChain`). -/
inductive AValue where
  | obj (h : Nat)
  | str (s : String)
  | box1 (r : Float2)
  | indeterminate
deriving DecidableEq, Repr

/-- Payload a device object carries: none, a 3D scalar array with an
element type, extents and the source buffer, a 1D array of object
handles, or the fixed color/opacity ramp arrays. -/
inductive Payload where
  | noPayload
  | scalar3D (t : ElemType) (nx ny nz : Nat) (src : ScalarData)
  | objArray (hs : List Nat)
  | colorArray (cs : List Color3)
  | opacityArray (os : List Rat)
deriving DecidableEq, Repr

/-- Number of elements of an array payload; for a 3D scalar array this is
the product of its extents. -/
def Payload.numItems : Payload → Nat
  | .noPayload => 0
  | .scalar3D _ nx ny nz _ => nx * ny * nz
  | .objArray hs => hs.length
  | .colorArray cs => cs.length
  | .opacityArray os => os.length

/-- Kinds of device objects created by the viewer. -/
inductive ObjKind where
  | world
  | spatialField
  | volume
  | array
deriving DecidableEq, Repr

/-- A device object: kind, payload, reference count, pending parameters
and the snapshot of parameters activated by the last commit. -/
structure AnariObj where
  kind : ObjKind
  payload : Payload
  rc : Nat
  params : List (String × AValue)
  committed : List (String × AValue)
deriving DecidableEq, Repr

/-- Lookup of a parameter by name in a parameter list. -/
def lookupP : List (String × AValue) → String → Option AValue
  | [], _ => none
  | (k, v) :: rest, key => if k = key then some v else lookupP rest key

/-- Set a parameter by name: replace the first existing binding, or
append a fresh one. -/
def setP : List (String × AValue) → String → AValue → List (String × AValue)
  | [], key, v => [(key, v)]
  | (k, w) :: rest, key, v =>
      if k = key then (key, v) :: rest else (k, w) :: setP rest key v

/-- State of the rendering device: the next fresh handle, the object
store, the chronological log of every reference-count decrement, and a
flag recording that an operation with undefined behavior was performed
(releasing an unknown or already destroyed handle, or using the value of
an uninitialized variable). -/
structure DState where
  nextId : Nat
  store : Nat → Option AnariObj
  releaseLog : List Nat
  ub : Bool

/-- Fresh device state. -/
def DState.init : DState :=
  { nextId := 1, store := fun _ => none, releaseLog := [], ub := false }

/-- Overwrite the store at one handle. -/
def DState.set (d : DState) (h : Nat) (o : AnariObj) : DState :=
  { d with store := fun x => if x = h then some o else d.store x }

/-- Append one entry to the release log. -/
def DState.logRel (d : DState) (h : Nat) : DState :=
  { d with releaseLog := d.releaseLog ++ [h] }

/-- Mark the state as having performed undefined behavior. -/
def DState.markUB (d : DState) : DState :=
  { d with ub := true }

/-- Create a fresh device object with reference count 1
(`anari::newObject` / `anariNewArray*`). -/
def DState.newObject (d : DState) (k : ObjKind) (p : Payload) :
    Nat × DState :=
  (d.nextId,
   { nextId := d.nextId + 1,
     store := fun x =>
       if x = d.nextId then
         some { kind := k, payload := p, rc := 1, params := [], committed := [] }
       else d.store x,
     releaseLog := d.releaseLog,
     ub := d.ub })

/-- Increment the reference count of a handle (no-op on the null
handle); the device does this for every object it is handed. -/
def DState.retain (d : DState) (h : Nat) : DState :=
  if h = 0 then d
  else
    match d.store h with
    | none => d.markUB
    | some o => d.set h { o with rc := o.rc + 1 }

/-- Handles an object holds references to: the elements of an object
array payload plus every object-valued parameter currently set. -/
def AnariObj.objRefs (o : AnariObj) : List Nat :=
  (match o.payload with
   | .objArray hs => hs
   | _ => []) ++
  o.params.filterMap (fun p =>
    match p.snd with
    | .obj h => some h
    | _ => none)

/-- Decrement a reference count (`anariRelease`); at zero the object is
destroyed and releases every object it holds a reference to.  The fuel
bounds the cascade depth; every reachable object graph in this
development has depth at most four. -/
def releaseCore : Nat → Nat → DState → DState
  | 0, _, d => d.markUB
  | fuel + 1, h, d =>
      if h = 0 then d
      else
        let d1 := d.logRel h
        match d1.store h with
        | none => d1.markUB
        | some o =>
            if o.rc = 0 then d1.markUB
            else if o.rc = 1 then
              (o.objRefs).foldl (fun acc c => releaseCore fuel c acc)
                (d1.set h { o with rc := 0 })
            else d1.set h { o with rc := o.rc - 1 }

/-- Fuel used for every release issued by the embedded viewer code. -/
def relFuel : Nat := 8

/-- Application-visible release (`anari::release`). -/
def DState.release (d : DState) (h : Nat) : DState :=
  releaseCore relFuel h d

/-- Set a named parameter (`anari::setParameter`): the device retains an
object-valued argument, installs the binding and drops its reference to
the previously bound object, if any. -/
def DState.setParameter (d : DState) (t : Nat) (n : String) (v : AValue) :
    DState :=
  let d1 :=
    match v with
    | .obj h => d.retain h
    | .indeterminate => d.markUB
    | _ => d
  match d1.store t with
  | none => d1.markUB
  | some o =>
      let old := lookupP o.params n
      let d2 := d1.set t { o with params := setP o.params n v }
      match old with
      | some (.obj h) => releaseCore relFuel h d2
      | _ => d2

/-- The ownership-transferring variant
(`anari::setAndReleaseParameter`): set the parameter, then release the
caller's reference to the argument. -/
def DState.setAndReleaseParameter (d : DState) (t : Nat) (n : String)
    (v : AValue) : DState :=
  let d1 := d.setParameter t n v
  match v with
  | .obj h => releaseCore relFuel h d1
  | .indeterminate => d1.markUB
  | _ => d1

/-- Activate the pending parameters (`anari::commitParameters`). -/
def DState.commitParameters (d : DState) (t : Nat) : DState :=
  match d.store t with
  | none => d.markUB
  | some o => d.set t { o with committed := o.params }

/-- Create a 1D array of object handles
(`anari::newArray1D(device, &volume)`); the array retains its elements. -/
def DState.newArray1DObjs (d : DState) (hs : List Nat) :
    Nat × DState :=
  let r := d.newObject .array (.objArray hs)
  (r.fst, hs.foldl (fun acc x => acc.retain x) r.snd)

/-- Create a 1D array of colors. -/
def DState.newArray1DColors (d : DState) (cs : List Color3) :
    Nat × DState :=
  d.newObject .array (.colorArray cs)

/-- Create a 1D array of opacities. -/
def DState.newArray1DOpacities (d : DState) (os : List Rat) :
    Nat × DState :=
  d.newObject .array (.opacityArray os)

/-- Create a 3D scalar array (`anariNewArray3D`) over one of the typed
voxel buffers with the given extents. -/
def DState.newArray3D (d : DState) (t : ElemType) (nx ny nz : Nat)
    (src : ScalarData) : Nat × DState :=
  d.newObject .array (.scalar3D t nx ny nz src)

/-- Read an object's currently pending parameter. -/
def DState.lookupParam (d : DState) (h : Nat) (n : String) :
    Option AValue :=
  match d.store h with
  | some o => lookupP o.params n
  | none => none

/-- Read an object's committed parameter. -/
def DState.lookupCommitted (d : DState) (h : Nat) (n : String) :
    Option AValue :=
  match d.store h with
  | some o => lookupP o.committed n
  | none => none

/-- Payload of a handle's object. -/
def DState.payloadOf (d : DState) (h : Nat) : Option Payload :=
  (d.store h).map AnariObj.payload

/-- Reference count of a handle (0 for unknown or destroyed handles). -/
def DState.rcOf (d : DState) (h : Nat) : Nat :=
  match d.store h with
  | some o => o.rc
  | none => 0

/-- Number of release operations the device has performed on a handle. -/
def DState.releaseCount (d : DState) (h : Nat) : Nat :=
  d.releaseLog.count h

/-- The list of volumes bound in a world, as a renderer sampling the
committed state sees it: the committed "volume" parameter dereferenced
through its object array. -/
def boundVolumes (d : DState) (world : Nat) : Option (List Nat) :=
  match d.lookupCommitted world "volume" with
  | some (.obj a) =>
      match d.payloadOf a with
      | some (.objArray hs) => some hs
      | _ => none
  | _ => none

/-!
External collaborators and the viewer's application state.
-/

/-- Modelled from the spec: `LookupTableCatalog` (`LacReader` in
`LacTransform.h`, not under `src/`): the LUT set is loaded once and the
active index is mutable (`read()`, `setActiveLut`, `getActiveLut`). -/
structure LacReader where
  numLuts : Nat
  activeLut : Nat
deriving DecidableEq, Repr

/-- Modelled from the spec: `setActiveLut(index)` stores the index; an
out-of-range index is a caller error propagated to the voxel source. -/
def LacReader.setActiveLut (r : LacReader) (i : Nat) : LacReader :=
  { r with activeLut := i }

/-- Which voxel source a pipeline step consulted. -/
inductive SourceKind where
  | raw
  | nifti
  | noSource
deriving DecidableEq, Repr

/-- Behavior of the external world a viewer session runs against: the
result of `RAWReader::open`, the field `RAWReader::getField(0)` would
produce, the result of `NiftiReader::open`, the field
`NiftiReader::getField(0, lacReader)` produces under each active LUT,
and the size of the loaded LUT catalog. -/
structure Env where
  rawOpenOk : Bool
  rawField : StructuredField
  niftiOpenOk : Bool
  niftiFieldAt : Nat → StructuredField
  lacNumLuts : Nat

/-- Modelled from the spec: `NiftiReader::getField` (in `readNifti.h`,
not under `src/`) either returns a valid `StructuredField` or signals
failure synchronously; any failure — the reader not being open, or the
active LUT index at or beyond the catalog size — aborts the caller at
the call site before anything else happens (spec sections 4.4, 6, 7). -/
def niftiGetField (env : Env) (opened : Bool) (lac : LacReader) :
    Option StructuredField :=
  if opened = true ∧ lac.activeLut < lac.numLuts then
    some (env.niftiFieldAt lac.activeLut)
  else none

/-- The command-line driven globals the scene setup reads
(`g_dimX/Y/Z`, `g_bytesPerCell`, `g_laclutid`).  `g_voxelRange` is not
here: it is a zero-initialized static, modelled inside `setupScene`. -/
structure Globals where
  dimX : Nat
  dimY : Nat
  dimZ : Nat
  bytesPerCell : Nat
  laclutid : Nat
deriving DecidableEq, Repr

/-- The part of `AppState` (plus the `g_voxelRange` global) the pipeline
reads and writes: the world and current field handles, the last loaded
field, the LUT catalog, the current value range, and whether
`NiftiReader::open` was called and succeeded during setup. -/
structure AppState where
  world : Nat
  field : Nat
  sdata : StructuredField
  lacReader : LacReader
  voxelRange : Float2
  niftiOpened : Bool
deriving DecidableEq, Repr

/-!
The construction chains, translated from `viewer.cpp`.  The field
chain appears three times in the source (startup raw path lines
277-310, startup NIfTI path lines 324-357, rebuild callback lines
462-495), differing only in the extents passed to `anariNewArray3D`;
it is embedded once, parameterized by those extents.  Likewise the
volume chain (lines 367-394 and 503-531) and the world binding (lines
396-402 and 533-539).
-/

/-- Field construction (`viewer.cpp` lines 274-311 and twins): create a
"structuredRegular" spatial field; declare `anari::Array3D scalar;`
uninitialized; dispatch on `bytesPerCell` to create the typed 3D array
over the matching voxel buffer (leaving `scalar` uninitialized when no
case matches); hand `scalar` to the field's "data" parameter with
ownership transfer; set the "filter" parameter to "linear"; commit. -/
def buildFieldChain (data : StructuredField) (nx ny nz : Nat)
    (d : DState) : Nat × DState :=
  let fb := d.newObject .spatialField .noPayload
  let fieldH := fb.fst
  let d := fb.snd
  let scalarState : Option Nat × DState :=
    if data.bytesPerCell = 1 then
      let r := d.newArray3D .ufixed8 nx ny nz (.u8 data.dataUI8)
      (some r.fst, r.snd)
    else if data.bytesPerCell = 2 then
      let r := d.newArray3D .ufixed16 nx ny nz (.u16 data.dataUI16)
      (some r.fst, r.snd)
    else if data.bytesPerCell = 4 then
      let r := d.newArray3D .float32 nx ny nz (.f32 data.dataF32)
      (some r.fst, r.snd)
    else (none, d)
  let d := scalarState.snd
  let d :=
    match scalarState.fst with
    | some h => d.setAndReleaseParameter fieldH "data" (.obj h)
    | none => d.setAndReleaseParameter fieldH "data" .indeterminate
  let d := d.setParameter fieldH "filter" (.str "linear")
  let d := d.commitParameters fieldH
  (fieldH, d)

/-- The fixed color ramp control points (`viewer.cpp` lines 375-377):
blue, green, red. -/
def rampColors : List Color3 := [(0, 0, 1), (0, 1, 0), (1, 0, 0)]

/-- The fixed opacity ramp control points (lines 379-380). -/
def rampOpacities : List Rat := [0, 1]

/-- Output of the volume chain: the volume handle, the two ramp array
handles and the device state. -/
structure VolOut where
  volume : Nat
  cArr : Nat
  oArr : Nat
  d : DState

/-- Volume construction (`viewer.cpp` lines 367-394 and 503-531):
create a "transferFunction1D" volume; set both its "value" and "field"
parameters to the current field handle; create and attach the fixed
color and opacity ramp arrays with ownership transfer; set "valueRange"
to the current `g_voxelRange`; commit. -/
def buildVolumeChain (fieldH : Nat) (range : Float2) (d : DState) :
    VolOut :=
  let vb := d.newObject .volume .noPayload
  let volumeH := vb.fst
  let d := vb.snd
  let d := d.setParameter volumeH "value" (.obj fieldH)
  let d := d.setParameter volumeH "field" (.obj fieldH)
  let cb := d.newArray1DColors rampColors
  let d := cb.snd
  let d := d.setAndReleaseParameter volumeH "color" (.obj cb.fst)
  let ob := d.newArray1DOpacities rampOpacities
  let d := ob.snd
  let d := d.setAndReleaseParameter volumeH "opacity" (.obj ob.fst)
  let d := d.setParameter volumeH "valueRange" (.box1 range)
  let d := d.commitParameters volumeH
  { volume := volumeH, cArr := cb.fst, oArr := ob.fst, d := d }

/-- Output of the world binding: the handle of the one-element volume
array and the device state. -/
structure BindOut where
  arr : Nat
  d : DState

/-- Scene binding (`viewer.cpp` lines 396-402 and 533-539): replace the
world's "volume" parameter by a fresh one-element object array holding
the new volume (ownership transferred), release the local volume
reference, and commit the world. -/
def bindVolumeChain (world volumeH : Nat) (d : DState) : BindOut :=
  let ab := d.newArray1DObjs [volumeH]
  let d := ab.snd
  let d := d.setAndReleaseParameter world "volume" (.obj ab.fst)
  let d := d.release volumeH
  let d := d.commitParameters world
  { arr := ab.fst, d := d }

/-- One generation of device objects: field (0 when no source loaded),
volume, world volume array, color array, opacity array. -/
structure Gen where
  f : Nat
  v : Nat
  a : Nat
  c : Nat
  o : Nat
deriving DecidableEq, Repr

/-- Result data of the startup setup: the volume bound into the world,
which source produced the field, and the handles of the generation. -/
structure SetupInfo where
  volume : Nat
  source : SourceKind
  gen : Gen
deriving DecidableEq, Repr

/-- The raw-path guard of `setupWindows` (line 268-270): all of
`g_dimX`, `g_dimY`, `g_dimZ`, `g_bytesPerCell` nonzero and
`rawReader.open` succeeding. -/
def rawCond (env : Env) (g : Globals) : Bool :=
  g.dimX != 0 && g.dimY != 0 && g.dimZ != 0 && g.bytesPerCell != 0 &&
    env.rawOpenOk

/-- Shared tail of the startup setup (`viewer.cpp` lines 365-402):
build the volume from the current field handle and `g_voxelRange`,
bind it into the world, and package the results. -/
def finishSetup (st : AppState) (d : DState) (src : SourceKind) :
    AppState × DState × SetupInfo :=
  let vo := buildVolumeChain st.field st.voxelRange d
  let bo := bindVolumeChain st.world vo.volume vo.d
  (st, bo.d,
   { volume := vo.volume, source := src,
     gen := { f := st.field, v := vo.volume, a := bo.arr,
              c := vo.cArr, o := vo.oArr } })

/-- The scene portion of `Application::setupWindows` (`viewer.cpp`
lines 258-402): create the world, read the LUT catalog and select
`g_laclutid`, then try the raw reader (guarded by the dims/type
globals), else the NIfTI reader, else proceed with no field; in each
case run the field chain, update `m_state` and `g_voxelRange`, and
finish with the volume construction and world binding.  `none` models
the startup aborting because the NIfTI source signalled failure. -/
def setupScene (env : Env) (g : Globals) :
    Option (AppState × DState × SetupInfo) :=
  let d := DState.init
  let wb := d.newObject .world .noPayload
  let world := wb.fst
  let d := wb.snd
  let lac : LacReader :=
    LacReader.setActiveLut { numLuts := env.lacNumLuts, activeLut := 0 }
      g.laclutid
  let st0 : AppState :=
    { world := world, field := 0, sdata := emptyField, lacReader := lac,
      voxelRange := ⟨0, 0⟩, niftiOpened := false }
  if rawCond env g then
    let data := env.rawField
    let fb := buildFieldChain data g.dimX g.dimY g.dimZ d
    let st1 : AppState :=
      { st0 with sdata := data, field := fb.fst,
                 voxelRange := data.dataRange }
    some (finishSetup st1 fb.snd .raw)
  else if env.niftiOpenOk then
    match niftiGetField env true lac with
    | none => none
    | some data =>
        let fb := buildFieldChain data data.dimX data.dimY data.dimZ d
        let st1 : AppState :=
          { st0 with sdata := data, field := fb.fst,
                     voxelRange := data.dataRange, niftiOpened := true }
        some (finishSetup st1 fb.snd .nifti)
  else
    some (finishSetup st0 d .noSource)

/-- Result data of one rebuild: whether it succeeded, which source it
queried, and the new generation's handles (0s on failure). -/
structure RebuildInfo where
  success : Bool
  queried : SourceKind
  newField : Nat
  newVolume : Nat
  gen : Gen
deriving DecidableEq, Repr

/-- The lookup-table-change rebuild (`setUpdateLacLutCallback` lambda,
`viewer.cpp` lines 452-541): store the new active LUT, re-fetch the
field from the NIfTI reader (a failure there aborts the callback with
nothing else done), then run the field chain, overwrite `m_state.field`
(without releasing the previous handle) and `g_voxelRange`, build the
new volume and bind it into the world. -/
def updateLacLut (env : Env) (lacLutId : Nat) (app : AppState)
    (d : DState) : (AppState × DState) × RebuildInfo :=
  let app := { app with lacReader := app.lacReader.setActiveLut lacLutId }
  match niftiGetField env app.niftiOpened app.lacReader with
  | none =>
      ((app, d),
       { success := false, queried := .nifti, newField := 0,
         newVolume := 0, gen := ⟨0, 0, 0, 0, 0⟩ })
  | some data =>
      let app := { app with sdata := data }
      let fb := buildFieldChain data data.dimX data.dimY data.dimZ d
      let app := { app with field := fb.fst, voxelRange := data.dataRange }
      let vo := buildVolumeChain fb.fst data.dataRange fb.snd
      let bo := bindVolumeChain app.world vo.volume vo.d
      ((app, bo.d),
       { success := true, queried := .nifti, newField := fb.fst,
         newVolume := vo.volume,
         gen := { f := fb.fst, v := vo.volume, a := bo.arr,
                  c := vo.cArr, o := vo.oArr } })

/-- The handle releases of `Application::teardown` (`viewer.cpp` lines
579-585): release the current field and the world. -/
def teardown (app : AppState) (d : DState) : DState :=
  (d.release app.field).release app.world

/-!
Basic lemmas about the device-state operations.
-/

@[simp]
theorem DState.set_store_self (d : DState) (h : Nat) (o : AnariObj) :
    (d.set h o).store h = some o := by
  simp [DState.set]

theorem DState.set_store_ne (d : DState) (h x : Nat) (o : AnariObj)
    (hx : x ≠ h) : (d.set h o).store x = d.store x := by
  simp [DState.set, hx]

@[simp]
theorem DState.set_nextId (d : DState) (h : Nat) (o : AnariObj) :
    (d.set h o).nextId = d.nextId := rfl

@[simp]
theorem DState.set_releaseLog (d : DState) (h : Nat) (o : AnariObj) :
    (d.set h o).releaseLog = d.releaseLog := rfl

@[simp]
theorem DState.set_ub (d : DState) (h : Nat) (o : AnariObj) :
    (d.set h o).ub = d.ub := rfl

@[simp]
theorem DState.logRel_store (d : DState) (h : Nat) :
    (d.logRel h).store = d.store := rfl

@[simp]
theorem DState.logRel_nextId (d : DState) (h : Nat) :
    (d.logRel h).nextId = d.nextId := rfl

@[simp]
theorem DState.logRel_releaseLog (d : DState) (h : Nat) :
    (d.logRel h).releaseLog = d.releaseLog ++ [h] := rfl

@[simp]
theorem DState.logRel_ub (d : DState) (h : Nat) :
    (d.logRel h).ub = d.ub := rfl

@[simp]
theorem DState.markUB_store (d : DState) : d.markUB.store = d.store := rfl

@[simp]
theorem DState.markUB_nextId (d : DState) : d.markUB.nextId = d.nextId := rfl

@[simp]
theorem DState.markUB_releaseLog (d : DState) :
    d.markUB.releaseLog = d.releaseLog := rfl

@[simp]
theorem DState.markUB_ub (d : DState) : d.markUB.ub = true := rfl

theorem DState.retain_zero (d : DState) : d.retain 0 = d := by
  simp [DState.retain]

theorem DState.retain_some (d : DState) (h : Nat) (o : AnariObj)
    (h0 : h ≠ 0) (hs : d.store h = some o) :
    d.retain h = d.set h { o with rc := o.rc + 1 } := by
  simp [DState.retain, h0, hs]

theorem DState.commit_some (d : DState) (t : Nat) (o : AnariObj)
    (hs : d.store t = some o) :
    d.commitParameters t = d.set t { o with committed := o.params } := by
  simp [DState.commitParameters, hs]

/-- One-step unfolding of `releaseCore` at positive fuel. -/
theorem releaseCore_succ (fuel : Nat) (h : Nat) (d : DState) :
    releaseCore (fuel + 1) h d =
      (if h = 0 then d
       else
         let d1 := d.logRel h
         match d1.store h with
         | none => d1.markUB
         | some o =>
             if o.rc = 0 then d1.markUB
             else if o.rc = 1 then
               o.objRefs.foldl (fun acc c => releaseCore fuel c acc)
                 (d1.set h { o with rc := 0 })
             else d1.set h { o with rc := o.rc - 1 }) := by
  rw [releaseCore]

theorem releaseCore_null (fuel : Nat) (h : Nat) (d : DState)
    (h0 : h = 0) : releaseCore (fuel + 1) h d = d := by
  rw [releaseCore_succ, if_pos h0]

theorem releaseCore_decr (fuel : Nat) (h : Nat) (d : DState)
    (o : AnariObj) (h0 : h ≠ 0) (hs : d.store h = some o)
    (hrc : 2 ≤ o.rc) :
    releaseCore (fuel + 1) h d =
      (d.logRel h).set h { o with rc := o.rc - 1 } := by
  have h1 : ¬o.rc = 0 := by omega
  have h2 : ¬o.rc = 1 := by omega
  rw [releaseCore_succ, if_neg h0]
  simp only [DState.logRel_store, hs, h1, h2, if_false]

theorem releaseCore_destroy (fuel : Nat) (h : Nat) (d : DState)
    (o : AnariObj) (h0 : h ≠ 0) (hs : d.store h = some o)
    (hrc : o.rc = 1) :
    releaseCore (fuel + 1) h d =
      o.objRefs.foldl (fun acc c => releaseCore fuel c acc)
        ((d.logRel h).set h { o with rc := 0 }) := by
  have h1 : ¬o.rc = 0 := by omega
  rw [releaseCore_succ, if_neg h0]
  simp only [DState.logRel_store, hs, h1, hrc, if_false, if_true]
  simp

/-!
Unfolding lemmas for the cascading release at the concrete fuel the
embedded code uses.
-/

theorem relFuel_succ : relFuel = 7 + 1 := rfl

/-- Normalization of iterated successor offsets on fresh handles. -/
theorem add_one_one (a : Nat) : a + 1 + 1 = a + 2 := rfl

/-- Normalization of iterated successor offsets on fresh handles. -/
theorem add_one_one_one (a : Nat) : a + 1 + 1 + 1 = a + 3 := rfl

/-- Normalization of iterated successor offsets on fresh handles. -/
theorem add_one_one_one_one (a : Nat) : a + 1 + 1 + 1 + 1 = a + 4 := rfl

theorem releaseCore_lit7 (h : Nat) (d : DState) :
    releaseCore 7 h d =
      (if h = 0 then d
       else
         let d1 := d.logRel h
         match d1.store h with
         | none => d1.markUB
         | some o =>
             if o.rc = 0 then d1.markUB
             else if o.rc = 1 then
               o.objRefs.foldl (fun acc c => releaseCore 6 c acc)
                 (d1.set h { o with rc := 0 })
             else d1.set h { o with rc := o.rc - 1 }) := rfl

theorem releaseCore_lit6 (h : Nat) (d : DState) :
    releaseCore 6 h d =
      (if h = 0 then d
       else
         let d1 := d.logRel h
         match d1.store h with
         | none => d1.markUB
         | some o =>
             if o.rc = 0 then d1.markUB
             else if o.rc = 1 then
               o.objRefs.foldl (fun acc c => releaseCore 5 c acc)
                 (d1.set h { o with rc := 0 })
             else d1.set h { o with rc := o.rc - 1 }) := rfl

/-- Parameter list of a freshly built transfer-function volume, in the
order the embedded code sets them. -/
def volParams (f c o : Nat) (r : Float2) : List (String × AValue) :=
  [("value", .obj f), ("field", .obj f), ("color", .obj c),
   ("opacity", .obj o), ("valueRange", .box1 r)]


/-- Exact effect of the field chain when `bytesPerCell` matches the
`bpc1` dispatch case. -/
theorem buildFieldChain_bpc1 (data : StructuredField) (nx ny nz : Nat)
    (d : DState) (h1 : data.bytesPerCell = 1) :
    (buildFieldChain data nx ny nz d).fst = d.nextId ∧
    (buildFieldChain data nx ny nz d).snd.nextId = d.nextId + 2 ∧
    (buildFieldChain data nx ny nz d).snd.store d.nextId =
      some { kind := .spatialField, payload := .noPayload, rc := 1,
             params := [("data", .obj (d.nextId + 1)),
                        ("filter", .str "linear")],
             committed := [("data", .obj (d.nextId + 1)),
                           ("filter", .str "linear")] } ∧
    (buildFieldChain data nx ny nz d).snd.store (d.nextId + 1) =
      some { kind := .array,
             payload := .scalar3D .ufixed8 nx ny nz (.u8 data.dataUI8),
             rc := 1, params := [], committed := [] } ∧
    (∀ x, x ≠ d.nextId → x ≠ d.nextId + 1 →
      (buildFieldChain data nx ny nz d).snd.store x = d.store x) ∧
    (buildFieldChain data nx ny nz d).snd.releaseLog =
      d.releaseLog ++ [d.nextId + 1] ∧
    (buildFieldChain data nx ny nz d).snd.ub = d.ub := by
  refine ⟨rfl, ?_, ?_, ?_, ?_, ?_, ?_⟩ <;>
  first
  | (intro x hx1 hx2
     simp [buildFieldChain, DState.newObject, DState.newArray3D,
      DState.setAndReleaseParameter, DState.setParameter, DState.retain,
      DState.commitParameters, DState.set, DState.logRel, DState.markUB,
      relFuel_succ, releaseCore_succ, AnariObj.objRefs, lookupP, setP,
      self_eq_add_right, add_right_eq_self, h1, hx1, hx2])
  | simp [buildFieldChain, DState.newObject, DState.newArray3D,
      DState.setAndReleaseParameter, DState.setParameter, DState.retain,
      DState.commitParameters, DState.set, DState.logRel, DState.markUB,
      relFuel_succ, releaseCore_succ, AnariObj.objRefs, lookupP, setP,
      self_eq_add_right, add_right_eq_self, h1]

/-- Exact effect of the field chain when `bytesPerCell` matches the
`bpc2` dispatch case. -/
theorem buildFieldChain_bpc2 (data : StructuredField) (nx ny nz : Nat)
    (d : DState) (h1 : data.bytesPerCell = 2) :
    (buildFieldChain data nx ny nz d).fst = d.nextId ∧
    (buildFieldChain data nx ny nz d).snd.nextId = d.nextId + 2 ∧
    (buildFieldChain data nx ny nz d).snd.store d.nextId =
      some { kind := .spatialField, payload := .noPayload, rc := 1,
             params := [("data", .obj (d.nextId + 1)),
                        ("filter", .str "linear")],
             committed := [("data", .obj (d.nextId + 1)),
                           ("filter", .str "linear")] } ∧
    (buildFieldChain data nx ny nz d).snd.store (d.nextId + 1) =
      some { kind := .array,
             payload := .scalar3D .ufixed16 nx ny nz (.u16 data.dataUI16),
             rc := 1, params := [], committed := [] } ∧
    (∀ x, x ≠ d.nextId → x ≠ d.nextId + 1 →
      (buildFieldChain data nx ny nz d).snd.store x = d.store x) ∧
    (buildFieldChain data nx ny nz d).snd.releaseLog =
      d.releaseLog ++ [d.nextId + 1] ∧
    (buildFieldChain data nx ny nz d).snd.ub = d.ub := by
  refine ⟨rfl, ?_, ?_, ?_, ?_, ?_, ?_⟩ <;>
  first
  | (intro x hx1 hx2
     simp [buildFieldChain, DState.newObject, DState.newArray3D,
      DState.setAndReleaseParameter, DState.setParameter, DState.retain,
      DState.commitParameters, DState.set, DState.logRel, DState.markUB,
      relFuel_succ, releaseCore_succ, AnariObj.objRefs, lookupP, setP,
      self_eq_add_right, add_right_eq_self, h1, hx1, hx2])
  | simp [buildFieldChain, DState.newObject, DState.newArray3D,
      DState.setAndReleaseParameter, DState.setParameter, DState.retain,
      DState.commitParameters, DState.set, DState.logRel, DState.markUB,
      relFuel_succ, releaseCore_succ, AnariObj.objRefs, lookupP, setP,
      self_eq_add_right, add_right_eq_self, h1]

/-- Exact effect of the field chain when `bytesPerCell` matches the
`bpc4` dispatch case. -/
theorem buildFieldChain_bpc4 (data : StructuredField) (nx ny nz : Nat)
    (d : DState) (h1 : data.bytesPerCell = 4) :
    (buildFieldChain data nx ny nz d).fst = d.nextId ∧
    (buildFieldChain data nx ny nz d).snd.nextId = d.nextId + 2 ∧
    (buildFieldChain data nx ny nz d).snd.store d.nextId =
      some { kind := .spatialField, payload := .noPayload, rc := 1,
             params := [("data", .obj (d.nextId + 1)),
                        ("filter", .str "linear")],
             committed := [("data", .obj (d.nextId + 1)),
                           ("filter", .str "linear")] } ∧
    (buildFieldChain data nx ny nz d).snd.store (d.nextId + 1) =
      some { kind := .array,
             payload := .scalar3D .float32 nx ny nz (.f32 data.dataF32),
             rc := 1, params := [], committed := [] } ∧
    (∀ x, x ≠ d.nextId → x ≠ d.nextId + 1 →
      (buildFieldChain data nx ny nz d).snd.store x = d.store x) ∧
    (buildFieldChain data nx ny nz d).snd.releaseLog =
      d.releaseLog ++ [d.nextId + 1] ∧
    (buildFieldChain data nx ny nz d).snd.ub = d.ub := by
  refine ⟨rfl, ?_, ?_, ?_, ?_, ?_, ?_⟩ <;>
  first
  | (intro x hx1 hx2
     simp [buildFieldChain, DState.newObject, DState.newArray3D,
      DState.setAndReleaseParameter, DState.setParameter, DState.retain,
      DState.commitParameters, DState.set, DState.logRel, DState.markUB,
      relFuel_succ, releaseCore_succ, AnariObj.objRefs, lookupP, setP,
      self_eq_add_right, add_right_eq_self, h1, hx1, hx2])
  | simp [buildFieldChain, DState.newObject, DState.newArray3D,
      DState.setAndReleaseParameter, DState.setParameter, DState.retain,
      DState.commitParameters, DState.set, DState.logRel, DState.markUB,
      relFuel_succ, releaseCore_succ, AnariObj.objRefs, lookupP, setP,
      self_eq_add_right, add_right_eq_self, h1]

/-- Exact effect of the field chain when no dispatch case matches: no
array is created, the uninitialized `scalar` is passed to the "data"
set-and-release call (undefined behavior), and the field is still
committed. -/
theorem buildFieldChain_bad (data : StructuredField) (nx ny nz : Nat)
    (d : DState) (h1 : data.bytesPerCell ≠ 1) (h2 : data.bytesPerCell ≠ 2)
    (h4 : data.bytesPerCell ≠ 4) :
    (buildFieldChain data nx ny nz d).fst = d.nextId ∧
    (buildFieldChain data nx ny nz d).snd.nextId = d.nextId + 1 ∧
    (buildFieldChain data nx ny nz d).snd.store d.nextId =
      some { kind := .spatialField, payload := .noPayload, rc := 1,
             params := [("data", .indeterminate),
                        ("filter", .str "linear")],
             committed := [("data", .indeterminate),
                           ("filter", .str "linear")] } ∧
    (∀ x, x ≠ d.nextId →
      (buildFieldChain data nx ny nz d).snd.store x = d.store x) ∧
    (buildFieldChain data nx ny nz d).snd.releaseLog = d.releaseLog ∧
    (buildFieldChain data nx ny nz d).snd.ub = true := by
  refine ⟨rfl, ?_, ?_, ?_, ?_, ?_⟩ <;>
  first
  | (intro x hx1
     simp [buildFieldChain, DState.newObject, DState.newArray3D,
      DState.setAndReleaseParameter, DState.setParameter, DState.retain,
      DState.commitParameters, DState.set, DState.logRel, DState.markUB,
      relFuel_succ, releaseCore_succ, AnariObj.objRefs, lookupP, setP,
      self_eq_add_right, add_right_eq_self, h1, h2, h4, hx1])
  | simp [buildFieldChain, DState.newObject, DState.newArray3D,
      DState.setAndReleaseParameter, DState.setParameter, DState.retain,
      DState.commitParameters, DState.set, DState.logRel, DState.markUB,
      relFuel_succ, releaseCore_succ, AnariObj.objRefs, lookupP, setP,
      self_eq_add_right, add_right_eq_self, h1, h2, h4]

/-- Shape facts of the field chain that hold for every `bytesPerCell`:
the field handle is the next fresh one, its object exists with
reference count 1, and nothing below the old fresh mark is touched. -/
theorem buildFieldChain_shape (data : StructuredField) (nx ny nz : Nat)
    (d : DState) :
    (buildFieldChain data nx ny nz d).fst = d.nextId ∧
    d.nextId < (buildFieldChain data nx ny nz d).snd.nextId ∧
    (buildFieldChain data nx ny nz d).snd.nextId ≤ d.nextId + 2 ∧
    (∃ fo, (buildFieldChain data nx ny nz d).snd.store d.nextId = some fo ∧
      fo.rc = 1) ∧
    (∀ x, x < d.nextId →
      (buildFieldChain data nx ny nz d).snd.store x = d.store x) := by
  by_cases h1 : data.bytesPerCell = 1
  · obtain ⟨e1, e2, e3, e4, e5, e6, e7⟩ := buildFieldChain_bpc1 data nx ny nz d h1
    exact ⟨e1, by omega, by omega, ⟨_, e3, rfl⟩,
      fun x hx => e5 x (by omega) (by omega)⟩
  by_cases h2 : data.bytesPerCell = 2
  · obtain ⟨e1, e2, e3, e4, e5, e6, e7⟩ := buildFieldChain_bpc2 data nx ny nz d h2
    exact ⟨e1, by omega, by omega, ⟨_, e3, rfl⟩,
      fun x hx => e5 x (by omega) (by omega)⟩
  by_cases h4 : data.bytesPerCell = 4
  · obtain ⟨e1, e2, e3, e4, e5, e6, e7⟩ := buildFieldChain_bpc4 data nx ny nz d h4
    exact ⟨e1, by omega, by omega, ⟨_, e3, rfl⟩,
      fun x hx => e5 x (by omega) (by omega)⟩
  · obtain ⟨e1, e2, e3, e4, e5, e6⟩ := buildFieldChain_bad data nx ny nz d h1 h2 h4
    exact ⟨e1, by omega, by omega, ⟨_, e3, rfl⟩,
      fun x hx => e4 x (by omega)⟩

set_option maxHeartbeats 2000000 in
/-- Exact effect of the volume chain for a nonzero field handle: the
volume, color array and opacity array are created, the field is
retained under its two parameter roles, the ramp arrays' ownership is
transferred into the volume, and the volume is committed. -/
theorem buildVolumeChain_pos (fieldH : Nat) (range : Float2)
    (d : DState) (fo : AnariObj) (hf0 : fieldH ≠ 0)
    (hlt : fieldH < d.nextId) (hsf : d.store fieldH = some fo) :
    (buildVolumeChain fieldH range d).volume = d.nextId ∧
    (buildVolumeChain fieldH range d).cArr = d.nextId + 1 ∧
    (buildVolumeChain fieldH range d).oArr = d.nextId + 2 ∧
    (buildVolumeChain fieldH range d).d.nextId = d.nextId + 3 ∧
    (buildVolumeChain fieldH range d).d.store d.nextId =
      some { kind := .volume, payload := .noPayload, rc := 1,
             params := volParams fieldH (d.nextId + 1) (d.nextId + 2) range,
             committed :=
               volParams fieldH (d.nextId + 1) (d.nextId + 2) range } ∧
    (buildVolumeChain fieldH range d).d.store (d.nextId + 1) =
      some { kind := .array, payload := .colorArray rampColors, rc := 1,
             params := [], committed := [] } ∧
    (buildVolumeChain fieldH range d).d.store (d.nextId + 2) =
      some { kind := .array, payload := .opacityArray rampOpacities,
             rc := 1, params := [], committed := [] } ∧
    (buildVolumeChain fieldH range d).d.store fieldH =
      some { fo with rc := fo.rc + 2 } ∧
    (∀ x, x ≠ fieldH → x ≠ d.nextId → x ≠ d.nextId + 1 →
      x ≠ d.nextId + 2 →
      (buildVolumeChain fieldH range d).d.store x = d.store x) := by
  have b1 : fieldH ≠ d.nextId := by omega
  have b2 : fieldH ≠ d.nextId + 1 := by omega
  have b3 : fieldH ≠ d.nextId + 2 := by omega
  have c1 : d.nextId ≠ fieldH := by omega
  have c2 : d.nextId + 1 ≠ fieldH := by omega
  have c3 : d.nextId + 2 ≠ fieldH := by omega
  refine ⟨rfl, ?_, ?_, ?_, ?_, ?_, ?_, ?_, ?_⟩ <;>
  first
  | (intro x hx1 hx2 hx3 hx4
     simp [buildVolumeChain, volParams, DState.newObject, DState.newArray1DColors,
      DState.newArray1DOpacities, DState.setAndReleaseParameter,
      DState.setParameter, DState.retain, DState.commitParameters,
      DState.set, DState.logRel, DState.markUB, relFuel_succ,
      releaseCore_succ, AnariObj.objRefs, lookupP, setP,
      add_one_one, add_one_one_one, add_one_one_one_one,
      self_eq_add_right, add_right_eq_self, add_right_inj, add_left_inj,
      hf0, hsf, b1, b2, b3, c1, c2, c3, hx1, hx2, hx3, hx4])
  | simp [buildVolumeChain, volParams, DState.newObject, DState.newArray1DColors,
      DState.newArray1DOpacities, DState.setAndReleaseParameter,
      DState.setParameter, DState.retain, DState.commitParameters,
      DState.set, DState.logRel, DState.markUB, relFuel_succ,
      releaseCore_succ, AnariObj.objRefs, lookupP, setP,
      add_one_one, add_one_one_one, add_one_one_one_one,
      self_eq_add_right, add_right_eq_self, add_right_inj, add_left_inj,
      hf0, hsf, b1, b2, b3, c1, c2, c3]

set_option maxHeartbeats 2000000 in
/-- Exact effect of the volume chain for the null field handle (the
startup case where no voxel source opened): identical, except that the
device performs no retains on the field. -/
theorem buildVolumeChain_null (range : Float2) (d : DState) :
    (buildVolumeChain 0 range d).volume = d.nextId ∧
    (buildVolumeChain 0 range d).cArr = d.nextId + 1 ∧
    (buildVolumeChain 0 range d).oArr = d.nextId + 2 ∧
    (buildVolumeChain 0 range d).d.nextId = d.nextId + 3 ∧
    (buildVolumeChain 0 range d).d.store d.nextId =
      some { kind := .volume, payload := .noPayload, rc := 1,
             params := volParams 0 (d.nextId + 1) (d.nextId + 2) range,
             committed := volParams 0 (d.nextId + 1) (d.nextId + 2) range } ∧
    (buildVolumeChain 0 range d).d.store (d.nextId + 1) =
      some { kind := .array, payload := .colorArray rampColors, rc := 1,
             params := [], committed := [] } ∧
    (buildVolumeChain 0 range d).d.store (d.nextId + 2) =
      some { kind := .array, payload := .opacityArray rampOpacities,
             rc := 1, params := [], committed := [] } ∧
    (∀ x, x ≠ d.nextId → x ≠ d.nextId + 1 → x ≠ d.nextId + 2 →
      (buildVolumeChain 0 range d).d.store x = d.store x) := by
  refine ⟨rfl, ?_, ?_, ?_, ?_, ?_, ?_, ?_⟩ <;>
  first
  | (intro x hx1 hx2 hx3
     simp [buildVolumeChain, volParams, DState.newObject, DState.newArray1DColors,
      DState.newArray1DOpacities, DState.setAndReleaseParameter,
      DState.setParameter, DState.retain, DState.commitParameters,
      DState.set, DState.logRel, DState.markUB, relFuel_succ,
      releaseCore_succ, AnariObj.objRefs, lookupP, setP,
      add_one_one, add_one_one_one, add_one_one_one_one,
      self_eq_add_right, add_right_eq_self, add_right_inj, add_left_inj,
      hx1, hx2, hx3])
  | simp [buildVolumeChain, volParams, DState.newObject, DState.newArray1DColors,
      DState.newArray1DOpacities, DState.setAndReleaseParameter,
      DState.setParameter, DState.retain, DState.commitParameters,
      DState.set, DState.logRel, DState.markUB, relFuel_succ,
      releaseCore_succ, AnariObj.objRefs, lookupP, setP,
      add_one_one, add_one_one_one, add_one_one_one_one,
      self_eq_add_right, add_right_eq_self, add_right_inj, add_left_inj]

set_option maxHeartbeats 2000000 in
/-- Exact effect of the world binding when the world has no previously
bound volume array (the startup bind): a fresh one-element object array
over the new volume replaces the world's "volume" parameter, the local
references to array and volume are dropped, and the world is committed
with exactly that array. -/
theorem bindVolumeChain_first (world volumeH : Nat) (d : DState)
    (wo vo : AnariObj) (hwlt : world < d.nextId)
    (hqlt : volumeH < d.nextId) (hq0 : volumeH ≠ 0)
    (hwq : world ≠ volumeH) (hsw : d.store world = some wo)
    (hwp : lookupP wo.params "volume" = none)
    (hsq : d.store volumeH = some vo) (hqrc : vo.rc = 1) :
    (bindVolumeChain world volumeH d).arr = d.nextId ∧
    (bindVolumeChain world volumeH d).d.nextId = d.nextId + 1 ∧
    (bindVolumeChain world volumeH d).d.store world =
      some { wo with
             params := setP wo.params "volume" (.obj d.nextId),
             committed := setP wo.params "volume" (.obj d.nextId) } ∧
    (bindVolumeChain world volumeH d).d.store d.nextId =
      some { kind := .array, payload := .objArray [volumeH], rc := 1,
             params := [], committed := [] } ∧
    (bindVolumeChain world volumeH d).d.store volumeH =
      some { vo with rc := 1 } ∧
    (∀ x, x ≠ world → x ≠ volumeH → x ≠ d.nextId →
      (bindVolumeChain world volumeH d).d.store x = d.store x) := by
  have b1 : world ≠ d.nextId := by omega
  have c1 : d.nextId ≠ world := by omega
  have b2 : volumeH ≠ d.nextId := by omega
  have c2 : d.nextId ≠ volumeH := by omega
  have hn0 : d.nextId ≠ 0 := by omega
  have hqw : volumeH ≠ world := Ne.symm hwq
  refine ⟨rfl, ?_, ?_, ?_, ?_, ?_⟩ <;>
  first
  | (intro x hx1 hx2 hx3
     simp [bindVolumeChain, DState.newArray1DObjs, DState.newObject,
      DState.setAndReleaseParameter, DState.setParameter, DState.retain,
      DState.release, DState.commitParameters, DState.set, DState.logRel,
      DState.markUB, relFuel_succ, releaseCore_succ, releaseCore_lit7,
      releaseCore_lit6, AnariObj.objRefs, volParams, lookupP, setP,
      List.foldl_cons, List.foldl_nil, List.filterMap_cons,
      List.filterMap_nil, add_one_one, add_one_one_one,
      add_one_one_one_one, self_eq_add_right, add_right_eq_self,
      add_right_inj, add_left_inj, hwq, hqw, hq0, hsw, hwp, hsq, hqrc, b1, c1, b2, c2, hn0,
       hx1, hx2, hx3])
  | simp [bindVolumeChain, DState.newArray1DObjs, DState.newObject,
      DState.setAndReleaseParameter, DState.setParameter, DState.retain,
      DState.release, DState.commitParameters, DState.set, DState.logRel,
      DState.markUB, relFuel_succ, releaseCore_succ, releaseCore_lit7,
      releaseCore_lit6, AnariObj.objRefs, volParams, lookupP, setP,
      List.foldl_cons, List.foldl_nil, List.filterMap_cons,
      List.filterMap_nil, add_one_one, add_one_one_one,
      add_one_one_one_one, self_eq_add_right, add_right_eq_self,
      add_right_inj, add_left_inj, hwq, hqw, hq0, hsw, hwp, hsq, hqrc, b1, c1, b2, c2, hn0]

set_option maxHeartbeats 4000000 in
/-- Exact effect of the world binding when the world already holds a
previously bound generation with a live field handle, whose reference count drops by two: setting the new one-element
array releases the old array, which destroys the old array, the old
volume and the old ramp arrays, while the new generation is left bound
and committed. -/
theorem bindVolumeChain_replace (world volumeH aOld vOld cOld oOld : Nat)
    (fOld : Nat) (d : DState) (wo vo : AnariObj) (foOld : AnariObj) (rOld : Float2)
    (ccs : List Color3) (oos : List Rat)
    (vcom : List (String × AValue))
    (hltw : world < d.nextId) (hltq : volumeH < d.nextId) (hlta : aOld < d.nextId) (hltv : vOld < d.nextId) (hltc : cOld < d.nextId) (hlto : oOld < d.nextId) (hltf : fOld < d.nextId)
    (hzq : volumeH ≠ 0) (hza : aOld ≠ 0) (hzv : vOld ≠ 0) (hzc : cOld ≠ 0) (hzo : oOld ≠ 0) (hzf : fOld ≠ 0)
    (hwq : world ≠ volumeH) (hwa : world ≠ aOld) (hwv : world ≠ vOld) (hwc : world ≠ cOld) (hwo : world ≠ oOld) (hwf : world ≠ fOld) (hqa : volumeH ≠ aOld) (hqv : volumeH ≠ vOld) (hqc : volumeH ≠ cOld) (hqo : volumeH ≠ oOld) (hqf : volumeH ≠ fOld) (hav : aOld ≠ vOld) (hac : aOld ≠ cOld) (hao : aOld ≠ oOld) (haf : aOld ≠ fOld) (hvc : vOld ≠ cOld) (hvo : vOld ≠ oOld) (hvf : vOld ≠ fOld) (hco : cOld ≠ oOld) (hcf : cOld ≠ fOld) (hof : oOld ≠ fOld)
    (hsw : d.store world = some wo)
    (hwp : wo.params = [("volume", .obj aOld)])
    (hsa : d.store aOld =
      some { kind := .array, payload := .objArray [vOld], rc := 1,
             params := [], committed := [] })
    (hsv2 : d.store vOld =
      some { kind := .volume, payload := .noPayload, rc := 1,
             params := volParams fOld cOld oOld rOld,
             committed := vcom })
    (hsc : d.store cOld =
      some { kind := .array, payload := .colorArray ccs, rc := 1,
             params := [], committed := [] })
    (hso : d.store oOld =
      some { kind := .array, payload := .opacityArray oos, rc := 1,
             params := [], committed := [] })
    (hsf : d.store fOld = some foOld) (hfrc : foOld.rc = 3)
    (hsq : d.store volumeH = some vo) (hqrc : vo.rc = 1) :
    (bindVolumeChain world volumeH d).arr = d.nextId ∧
    (bindVolumeChain world volumeH d).d.nextId = d.nextId + 1 ∧
    (bindVolumeChain world volumeH d).d.store world =
      some { wo with
             params := [("volume", .obj d.nextId)],
             committed := [("volume", .obj d.nextId)] } ∧
    (bindVolumeChain world volumeH d).d.store d.nextId =
      some { kind := .array, payload := .objArray [volumeH], rc := 1,
             params := [], committed := [] } ∧
    (bindVolumeChain world volumeH d).d.store volumeH =
      some { vo with rc := 1 } ∧
    (bindVolumeChain world volumeH d).d.store aOld =
      some { kind := .array, payload := .objArray [vOld], rc := 0,
             params := [], committed := [] } ∧
    (bindVolumeChain world volumeH d).d.store vOld =
      some { kind := .volume, payload := .noPayload, rc := 0,
             params := volParams fOld cOld oOld rOld,
             committed := vcom } ∧
    (bindVolumeChain world volumeH d).d.store fOld =
      some { foOld with rc := 1 } ∧
    (bindVolumeChain world volumeH d).d.store cOld =
      some { kind := .array, payload := .colorArray ccs, rc := 0,
             params := [], committed := [] } ∧
    (bindVolumeChain world volumeH d).d.store oOld =
      some { kind := .array, payload := .opacityArray oos, rc := 0,
             params := [], committed := [] } ∧
    (∀ x, x ≠ d.nextId → x ≠ world → x ≠ volumeH → x ≠ aOld → x ≠ vOld → x ≠ cOld → x ≠ oOld → x ≠ fOld →
      (bindVolumeChain world volumeH d).d.store x = d.store x) := by
  have shwq : volumeH ≠ world := Ne.symm hwq
  have shwa : aOld ≠ world := Ne.symm hwa
  have shwv : vOld ≠ world := Ne.symm hwv
  have shwc : cOld ≠ world := Ne.symm hwc
  have shwo : oOld ≠ world := Ne.symm hwo
  have shwf : fOld ≠ world := Ne.symm hwf
  have shqa : aOld ≠ volumeH := Ne.symm hqa
  have shqv : vOld ≠ volumeH := Ne.symm hqv
  have shqc : cOld ≠ volumeH := Ne.symm hqc
  have shqo : oOld ≠ volumeH := Ne.symm hqo
  have shqf : fOld ≠ volumeH := Ne.symm hqf
  have shav : vOld ≠ aOld := Ne.symm hav
  have shac : cOld ≠ aOld := Ne.symm hac
  have shao : oOld ≠ aOld := Ne.symm hao
  have shaf : fOld ≠ aOld := Ne.symm haf
  have shvc : cOld ≠ vOld := Ne.symm hvc
  have shvo : oOld ≠ vOld := Ne.symm hvo
  have shvf : fOld ≠ vOld := Ne.symm hvf
  have shco : oOld ≠ cOld := Ne.symm hco
  have shcf : fOld ≠ cOld := Ne.symm hcf
  have shof : fOld ≠ oOld := Ne.symm hof
  have bnw : world ≠ d.nextId := by omega
  have cnw : d.nextId ≠ world := by omega
  have bnq : volumeH ≠ d.nextId := by omega
  have cnq : d.nextId ≠ volumeH := by omega
  have bna : aOld ≠ d.nextId := by omega
  have cna : d.nextId ≠ aOld := by omega
  have bnv : vOld ≠ d.nextId := by omega
  have cnv : d.nextId ≠ vOld := by omega
  have bnc : cOld ≠ d.nextId := by omega
  have cnc : d.nextId ≠ cOld := by omega
  have bno : oOld ≠ d.nextId := by omega
  have cno : d.nextId ≠ oOld := by omega
  have bnf : fOld ≠ d.nextId := by omega
  have cnf : d.nextId ≠ fOld := by omega
  have hn0 : d.nextId ≠ 0 := by omega
  refine ⟨rfl, ?_, ?_, ?_, ?_, ?_, ?_, ?_, ?_, ?_, ?_⟩ <;>
  first
  | (intro x hx0 hx1 hx2 hx3 hx4 hx5 hx6 hx7
     simp [bindVolumeChain, DState.newArray1DObjs, DState.newObject,
      DState.setAndReleaseParameter, DState.setParameter, DState.retain,
      DState.release, DState.commitParameters, DState.set, DState.logRel,
      DState.markUB, relFuel_succ, releaseCore_succ, releaseCore_lit7,
      releaseCore_lit6, AnariObj.objRefs, volParams, lookupP, setP,
      List.foldl_cons, List.foldl_nil, List.filterMap_cons,
      List.filterMap_nil, add_one_one, add_one_one_one,
      add_one_one_one_one, self_eq_add_right, add_right_eq_self,
      add_right_inj, add_left_inj, hsw, hwp, hsa, hsv2, hsc, hso, hsq, hqrc, hsf, hfrc, hn0, hzq, hza, hzv, hzc, hzo, hzf, hwq, hwa, hwv, hwc, hwo, hwf, hqa, hqv, hqc, hqo, hqf, hav, hac, hao, haf, hvc, hvo, hvf, hco, hcf, hof, shwq, shwa, shwv, shwc, shwo, shwf, shqa, shqv, shqc, shqo, shqf, shav, shac, shao, shaf, shvc, shvo, shvf, shco, shcf, shof, bnw, bnq, bna, bnv, bnc, bno, bnf, cnw, cnq, cna, cnv, cnc, cno, cnf,
       hx0, hx1, hx2, hx3, hx4, hx5, hx6, hx7])
  | simp [bindVolumeChain, DState.newArray1DObjs, DState.newObject,
      DState.setAndReleaseParameter, DState.setParameter, DState.retain,
      DState.release, DState.commitParameters, DState.set, DState.logRel,
      DState.markUB, relFuel_succ, releaseCore_succ, releaseCore_lit7,
      releaseCore_lit6, AnariObj.objRefs, volParams, lookupP, setP,
      List.foldl_cons, List.foldl_nil, List.filterMap_cons,
      List.filterMap_nil, add_one_one, add_one_one_one,
      add_one_one_one_one, self_eq_add_right, add_right_eq_self,
      add_right_inj, add_left_inj, hsw, hwp, hsa, hsv2, hsc, hso, hsq, hqrc, hsf, hfrc, hn0, hzq, hza, hzv, hzc, hzo, hzf, hwq, hwa, hwv, hwc, hwo, hwf, hqa, hqv, hqc, hqo, hqf, hav, hac, hao, haf, hvc, hvo, hvf, hco, hcf, hof, shwq, shwa, shwv, shwc, shwo, shwf, shqa, shqv, shqc, shqo, shqf, shav, shac, shao, shaf, shvc, shvo, shvf, shco, shcf, shof, bnw, bnq, bna, bnv, bnc, bno, bnf, cnw, cnq, cna, cnv, cnc, cno, cnf]

set_option maxHeartbeats 4000000 in
/-- Exact effect of the world binding when the world already holds a
previously bound generation with a null field handle: setting the new one-element
array releases the old array, which destroys the old array, the old
volume and the old ramp arrays, while the new generation is left bound
and committed. -/
theorem bindVolumeChain_replaceNull (world volumeH aOld vOld cOld oOld : Nat)
    (d : DState) (wo vo : AnariObj) (rOld : Float2)
    (ccs : List Color3) (oos : List Rat)
    (vcom : List (String × AValue))
    (hltw : world < d.nextId) (hltq : volumeH < d.nextId) (hlta : aOld < d.nextId) (hltv : vOld < d.nextId) (hltc : cOld < d.nextId) (hlto : oOld < d.nextId)
    (hzq : volumeH ≠ 0) (hza : aOld ≠ 0) (hzv : vOld ≠ 0) (hzc : cOld ≠ 0) (hzo : oOld ≠ 0)
    (hwq : world ≠ volumeH) (hwa : world ≠ aOld) (hwv : world ≠ vOld) (hwc : world ≠ cOld) (hwo : world ≠ oOld) (hqa : volumeH ≠ aOld) (hqv : volumeH ≠ vOld) (hqc : volumeH ≠ cOld) (hqo : volumeH ≠ oOld) (hav : aOld ≠ vOld) (hac : aOld ≠ cOld) (hao : aOld ≠ oOld) (hvc : vOld ≠ cOld) (hvo : vOld ≠ oOld) (hco : cOld ≠ oOld)
    (hsw : d.store world = some wo)
    (hwp : wo.params = [("volume", .obj aOld)])
    (hsa : d.store aOld =
      some { kind := .array, payload := .objArray [vOld], rc := 1,
             params := [], committed := [] })
    (hsv2 : d.store vOld =
      some { kind := .volume, payload := .noPayload, rc := 1,
             params := volParams 0 cOld oOld rOld,
             committed := vcom })
    (hsc : d.store cOld =
      some { kind := .array, payload := .colorArray ccs, rc := 1,
             params := [], committed := [] })
    (hso : d.store oOld =
      some { kind := .array, payload := .opacityArray oos, rc := 1,
             params := [], committed := [] })
    
    (hsq : d.store volumeH = some vo) (hqrc : vo.rc = 1) :
    (bindVolumeChain world volumeH d).arr = d.nextId ∧
    (bindVolumeChain world volumeH d).d.nextId = d.nextId + 1 ∧
    (bindVolumeChain world volumeH d).d.store world =
      some { wo with
             params := [("volume", .obj d.nextId)],
             committed := [("volume", .obj d.nextId)] } ∧
    (bindVolumeChain world volumeH d).d.store d.nextId =
      some { kind := .array, payload := .objArray [volumeH], rc := 1,
             params := [], committed := [] } ∧
    (bindVolumeChain world volumeH d).d.store volumeH =
      some { vo with rc := 1 } ∧
    (bindVolumeChain world volumeH d).d.store aOld =
      some { kind := .array, payload := .objArray [vOld], rc := 0,
             params := [], committed := [] } ∧
    (bindVolumeChain world volumeH d).d.store vOld =
      some { kind := .volume, payload := .noPayload, rc := 0,
             params := volParams 0 cOld oOld rOld,
             committed := vcom } ∧
    (bindVolumeChain world volumeH d).d.store cOld =
      some { kind := .array, payload := .colorArray ccs, rc := 0,
             params := [], committed := [] } ∧
    (bindVolumeChain world volumeH d).d.store oOld =
      some { kind := .array, payload := .opacityArray oos, rc := 0,
             params := [], committed := [] } ∧
    (∀ x, x ≠ d.nextId → x ≠ world → x ≠ volumeH → x ≠ aOld → x ≠ vOld → x ≠ cOld → x ≠ oOld →
      (bindVolumeChain world volumeH d).d.store x = d.store x) := by
  have shwq : volumeH ≠ world := Ne.symm hwq
  have shwa : aOld ≠ world := Ne.symm hwa
  have shwv : vOld ≠ world := Ne.symm hwv
  have shwc : cOld ≠ world := Ne.symm hwc
  have shwo : oOld ≠ world := Ne.symm hwo
  have shqa : aOld ≠ volumeH := Ne.symm hqa
  have shqv : vOld ≠ volumeH := Ne.symm hqv
  have shqc : cOld ≠ volumeH := Ne.symm hqc
  have shqo : oOld ≠ volumeH := Ne.symm hqo
  have shav : vOld ≠ aOld := Ne.symm hav
  have shac : cOld ≠ aOld := Ne.symm hac
  have shao : oOld ≠ aOld := Ne.symm hao
  have shvc : cOld ≠ vOld := Ne.symm hvc
  have shvo : oOld ≠ vOld := Ne.symm hvo
  have shco : oOld ≠ cOld := Ne.symm hco
  have bnw : world ≠ d.nextId := by omega
  have cnw : d.nextId ≠ world := by omega
  have bnq : volumeH ≠ d.nextId := by omega
  have cnq : d.nextId ≠ volumeH := by omega
  have bna : aOld ≠ d.nextId := by omega
  have cna : d.nextId ≠ aOld := by omega
  have bnv : vOld ≠ d.nextId := by omega
  have cnv : d.nextId ≠ vOld := by omega
  have bnc : cOld ≠ d.nextId := by omega
  have cnc : d.nextId ≠ cOld := by omega
  have bno : oOld ≠ d.nextId := by omega
  have cno : d.nextId ≠ oOld := by omega
  have hn0 : d.nextId ≠ 0 := by omega
  refine ⟨rfl, ?_, ?_, ?_, ?_, ?_, ?_, ?_, ?_, ?_⟩ <;>
  first
  | (intro x hx0 hx1 hx2 hx3 hx4 hx5 hx6
     simp [bindVolumeChain, DState.newArray1DObjs, DState.newObject,
      DState.setAndReleaseParameter, DState.setParameter, DState.retain,
      DState.release, DState.commitParameters, DState.set, DState.logRel,
      DState.markUB, relFuel_succ, releaseCore_succ, releaseCore_lit7,
      releaseCore_lit6, AnariObj.objRefs, volParams, lookupP, setP,
      List.foldl_cons, List.foldl_nil, List.filterMap_cons,
      List.filterMap_nil, add_one_one, add_one_one_one,
      add_one_one_one_one, self_eq_add_right, add_right_eq_self,
      add_right_inj, add_left_inj, hsw, hwp, hsa, hsv2, hsc, hso, hsq, hqrc, hn0, hzq, hza, hzv, hzc, hzo, hwq, hwa, hwv, hwc, hwo, hqa, hqv, hqc, hqo, hav, hac, hao, hvc, hvo, hco, shwq, shwa, shwv, shwc, shwo, shqa, shqv, shqc, shqo, shav, shac, shao, shvc, shvo, shco, bnw, bnq, bna, bnv, bnc, bno, cnw, cnq, cna, cnv, cnc, cno,
       hx0, hx1, hx2, hx3, hx4, hx5, hx6])
  | simp [bindVolumeChain, DState.newArray1DObjs, DState.newObject,
      DState.setAndReleaseParameter, DState.setParameter, DState.retain,
      DState.release, DState.commitParameters, DState.set, DState.logRel,
      DState.markUB, relFuel_succ, releaseCore_succ, releaseCore_lit7,
      releaseCore_lit6, AnariObj.objRefs, volParams, lookupP, setP,
      List.foldl_cons, List.foldl_nil, List.filterMap_cons,
      List.filterMap_nil, add_one_one, add_one_one_one,
      add_one_one_one_one, self_eq_add_right, add_right_eq_self,
      add_right_inj, add_left_inj, hsw, hwp, hsa, hsv2, hsc, hso, hsq, hqrc, hn0, hzq, hza, hzv, hzc, hzo, hwq, hwa, hwv, hwc, hwo, hqa, hqv, hqc, hqo, hav, hac, hao, hvc, hvo, hco, shwq, shwa, shwv, shwc, shwo, shqa, shqv, shqc, shqo, shav, shac, shao, shvc, shvo, shco, bnw, bnq, bna, bnv, bnc, bno, cnw, cnq, cna, cnv, cnc, cno]

/-- Invariant tying the application state to the device state after any
successful build: the world is committed with a one-element volume
array holding the current generation, whose objects have the reference
counts and parameters the pipeline established.  `g.f = 0` is the
startup case in which no voxel source opened. -/
structure GenShape (app : AppState) (d : DState) (g : Gen) : Prop where
  fEq : app.field = g.f
  bounds : 0 < app.world ∧ app.world < d.nextId ∧ 0 < g.a ∧
    g.a < d.nextId ∧ 0 < g.v ∧ g.v < d.nextId ∧ 0 < g.c ∧
    g.c < d.nextId ∧ 0 < g.o ∧ g.o < d.nextId
  distinct : app.world ≠ g.a ∧ app.world ≠ g.v ∧ app.world ≠ g.c ∧
    app.world ≠ g.o ∧ g.a ≠ g.v ∧ g.a ≠ g.c ∧ g.a ≠ g.o ∧ g.v ≠ g.c ∧
    g.v ≠ g.o ∧ g.c ≠ g.o
  wStore : d.store app.world =
    some { kind := .world, payload := .noPayload, rc := 1,
           params := [("volume", .obj g.a)],
           committed := [("volume", .obj g.a)] }
  aStore : d.store g.a =
    some { kind := .array, payload := .objArray [g.v], rc := 1,
           params := [], committed := [] }
  vStore : d.store g.v =
    some { kind := .volume, payload := .noPayload, rc := 1,
           params := volParams g.f g.c g.o app.voxelRange,
           committed := volParams g.f g.c g.o app.voxelRange }
  cStore : d.store g.c =
    some { kind := .array, payload := .colorArray rampColors, rc := 1,
           params := [], committed := [] }
  oStore : d.store g.o =
    some { kind := .array, payload := .opacityArray rampOpacities,
           rc := 1, params := [], committed := [] }
  fShape : g.f = 0 ∨
    (0 < g.f ∧ g.f < d.nextId ∧ g.f ≠ app.world ∧ g.f ≠ g.a ∧
      g.f ≠ g.v ∧ g.f ≠ g.c ∧ g.f ≠ g.o ∧
      ∃ fo, d.store g.f = some fo ∧ fo.rc = 3)

/-- A successful `NiftiReader::getField` returns the field of the
active LUT. -/
theorem niftiGetField_some (env : Env) (op : Bool) (lac : LacReader)
    (data : StructuredField) (h : niftiGetField env op lac = some data) :
    data = env.niftiFieldAt lac.activeLut := by
  by_cases hc : op = true ∧ lac.activeLut < lac.numLuts
  · rw [niftiGetField, if_pos hc] at h
    exact (Option.some.inj h).symm
  · rw [niftiGetField, if_neg hc] at h
    cases h

/-- `NiftiReader::getField` fails whenever the active LUT index is at
or beyond the catalog size. -/
theorem niftiGetField_none_of_ge (env : Env) (op : Bool)
    (lac : LacReader) (h : lac.numLuts ≤ lac.activeLut) :
    niftiGetField env op lac = none := by
  rw [niftiGetField, if_neg]
  rintro ⟨-, hlt⟩
  omega

set_option maxHeartbeats 1000000 in
/-- The shared setup tail establishes the generation-shape invariant
from a well-formed world entry and (when present) a freshly built field
with reference count 1. -/
theorem finishSetup_shape (st : AppState) (dx : DState) (src : SourceKind)
    (app2 : AppState) (d2 : DState) (info : SetupInfo)
    (heq : finishSetup st dx src = (app2, d2, info))
    (hw0 : 0 < st.world) (hwlt : st.world < dx.nextId)
    (hws : dx.store st.world =
      some { kind := .world, payload := .noPayload, rc := 1,
             params := [], committed := [] })
    (hfs : st.field = 0 ∨
      (0 < st.field ∧ st.field < dx.nextId ∧ st.field ≠ st.world ∧
        ∃ fo, dx.store st.field = some fo ∧ fo.rc = 1)) :
    GenShape app2 d2 info.gen ∧ info.volume = info.gen.v ∧ app2 = st ∧
    info.source = src ∧ info.gen.f = st.field := by
  have hn0 : dx.nextId ≠ 0 := by omega
  simp only [finishSetup, Prod.mk.injEq] at heq
  obtain ⟨rfl, rfl, rfl⟩ := heq
  rcases hfs with hf0 | ⟨hfpos, hflt, hfw, fo, hsf, hforc⟩
  · -- no field was built: the volume references the null handle
    rw [hf0]
    obtain ⟨v1, v2, v3, v4, v5, v6, v7, v8⟩ :=
      buildVolumeChain_null st.voxelRange dx
    obtain ⟨b1, b2, b3, b4, b5, b6⟩ :=
      bindVolumeChain_first st.world dx.nextId
        (buildVolumeChain 0 st.voxelRange dx).d
        { kind := .world, payload := .noPayload, rc := 1,
          params := [], committed := [] }
        { kind := .volume, payload := .noPayload, rc := 1,
          params := volParams 0 (dx.nextId + 1) (dx.nextId + 2)
            st.voxelRange,
          committed := volParams 0 (dx.nextId + 1) (dx.nextId + 2)
            st.voxelRange }
        (by rw [v4]; omega) (by rw [v4]; omega) hn0 (by omega)
        (by rw [v8 st.world (by omega) (by omega) (by omega)]; exact hws)
        (by simp [lookupP]) v5 rfl
    have hn2 : (bindVolumeChain st.world dx.nextId (buildVolumeChain 0 st.voxelRange dx).d).d.nextId = dx.nextId + 4 := by rw [b2, v4]
    rw [v1, v2, v3, b1, v4]
    rw [v4] at b3 b4
    refine ⟨⟨hf0, ?_, ?_, ?_, ?_, ?_, ?_, ?_, ?_⟩,
      rfl, rfl, rfl, rfl⟩
    · show 0 < st.world ∧ st.world < (bindVolumeChain st.world dx.nextId (buildVolumeChain 0 st.voxelRange dx).d).d.nextId ∧ 0 < dx.nextId + 3 ∧
        dx.nextId + 3 < (bindVolumeChain st.world dx.nextId (buildVolumeChain 0 st.voxelRange dx).d).d.nextId ∧ 0 < dx.nextId ∧ dx.nextId < (bindVolumeChain st.world dx.nextId (buildVolumeChain 0 st.voxelRange dx).d).d.nextId ∧
        0 < dx.nextId + 1 ∧ dx.nextId + 1 < (bindVolumeChain st.world dx.nextId (buildVolumeChain 0 st.voxelRange dx).d).d.nextId ∧ 0 < dx.nextId + 2 ∧
        dx.nextId + 2 < (bindVolumeChain st.world dx.nextId (buildVolumeChain 0 st.voxelRange dx).d).d.nextId
      omega
    · show st.world ≠ dx.nextId + 3 ∧ st.world ≠ dx.nextId ∧ st.world ≠ dx.nextId + 1 ∧
        st.world ≠ dx.nextId + 2 ∧ dx.nextId + 3 ≠ dx.nextId ∧ dx.nextId + 3 ≠ dx.nextId + 1 ∧
        dx.nextId + 3 ≠ dx.nextId + 2 ∧ dx.nextId ≠ dx.nextId + 1 ∧ dx.nextId ≠ dx.nextId + 2 ∧
        dx.nextId + 1 ≠ dx.nextId + 2
      omega
    · show (bindVolumeChain st.world dx.nextId (buildVolumeChain 0 st.voxelRange dx).d).d.store st.world =
        some { kind := .world, payload := .noPayload, rc := 1,
               params := [("volume", .obj (dx.nextId + 3))],
               committed := [("volume", .obj (dx.nextId + 3))] }
      rw [b3]
      simp [setP]
    · show (bindVolumeChain st.world dx.nextId (buildVolumeChain 0 st.voxelRange dx).d).d.store (dx.nextId + 3) =
        some { kind := .array, payload := .objArray [dx.nextId], rc := 1,
               params := [], committed := [] }
      exact b4
    · show (bindVolumeChain st.world dx.nextId (buildVolumeChain 0 st.voxelRange dx).d).d.store dx.nextId =
        some { kind := .volume, payload := .noPayload, rc := 1,
               params := volParams 0 (dx.nextId + 1) (dx.nextId + 2) st.voxelRange,
               committed :=
                 volParams 0 (dx.nextId + 1) (dx.nextId + 2) st.voxelRange }
      rw [b5]
    · show (bindVolumeChain st.world dx.nextId (buildVolumeChain 0 st.voxelRange dx).d).d.store (dx.nextId + 1) =
        some { kind := .array, payload := .colorArray rampColors, rc := 1,
               params := [], committed := [] }
      rw [b6 (dx.nextId + 1) (by omega) (by omega) (by omega)]
      exact v6
    · show (bindVolumeChain st.world dx.nextId (buildVolumeChain 0 st.voxelRange dx).d).d.store (dx.nextId + 2) =
        some { kind := .array, payload := .opacityArray rampOpacities,
               rc := 1, params := [], committed := [] }
      rw [b6 (dx.nextId + 2) (by omega) (by omega) (by omega)]
      exact v7
    · exact Or.inl rfl
  · -- a field was built: it is referenced twice by the new volume
    obtain ⟨v1, v2, v3, v4, v5, v6, v7, v8, v9⟩ :=
      buildVolumeChain_pos st.field st.voxelRange dx fo
        (by omega) hflt hsf
    obtain ⟨b1, b2, b3, b4, b5, b6⟩ :=
      bindVolumeChain_first st.world dx.nextId
        (buildVolumeChain st.field st.voxelRange dx).d
        { kind := .world, payload := .noPayload, rc := 1,
          params := [], committed := [] }
        { kind := .volume, payload := .noPayload, rc := 1,
          params := volParams st.field (dx.nextId + 1) (dx.nextId + 2)
            st.voxelRange,
          committed := volParams st.field (dx.nextId + 1) (dx.nextId + 2)
            st.voxelRange }
        (by rw [v4]; omega) (by rw [v4]; omega) hn0 (by omega)
        (by rw [v9 st.world (Ne.symm hfw) (by omega) (by omega) (by omega)]
            exact hws)
        (by simp [lookupP]) v5 rfl
    have hn2 : (bindVolumeChain st.world dx.nextId (buildVolumeChain st.field st.voxelRange dx).d).d.nextId = dx.nextId + 4 := by rw [b2, v4]
    rw [v1, v2, v3, b1, v4]
    rw [v4] at b3 b4
    refine ⟨⟨rfl, ?_, ?_, ?_, ?_, ?_, ?_, ?_, ?_⟩,
      rfl, rfl, rfl, rfl⟩
    · show 0 < st.world ∧ st.world < (bindVolumeChain st.world dx.nextId (buildVolumeChain st.field st.voxelRange dx).d).d.nextId ∧ 0 < dx.nextId + 3 ∧
        dx.nextId + 3 < (bindVolumeChain st.world dx.nextId (buildVolumeChain st.field st.voxelRange dx).d).d.nextId ∧ 0 < dx.nextId ∧ dx.nextId < (bindVolumeChain st.world dx.nextId (buildVolumeChain st.field st.voxelRange dx).d).d.nextId ∧
        0 < dx.nextId + 1 ∧ dx.nextId + 1 < (bindVolumeChain st.world dx.nextId (buildVolumeChain st.field st.voxelRange dx).d).d.nextId ∧ 0 < dx.nextId + 2 ∧
        dx.nextId + 2 < (bindVolumeChain st.world dx.nextId (buildVolumeChain st.field st.voxelRange dx).d).d.nextId
      omega
    · show st.world ≠ dx.nextId + 3 ∧ st.world ≠ dx.nextId ∧ st.world ≠ dx.nextId + 1 ∧
        st.world ≠ dx.nextId + 2 ∧ dx.nextId + 3 ≠ dx.nextId ∧ dx.nextId + 3 ≠ dx.nextId + 1 ∧
        dx.nextId + 3 ≠ dx.nextId + 2 ∧ dx.nextId ≠ dx.nextId + 1 ∧ dx.nextId ≠ dx.nextId + 2 ∧
        dx.nextId + 1 ≠ dx.nextId + 2
      omega
    · show (bindVolumeChain st.world dx.nextId (buildVolumeChain st.field st.voxelRange dx).d).d.store st.world =
        some { kind := .world, payload := .noPayload, rc := 1,
               params := [("volume", .obj (dx.nextId + 3))],
               committed := [("volume", .obj (dx.nextId + 3))] }
      rw [b3]
      simp [setP]
    · show (bindVolumeChain st.world dx.nextId (buildVolumeChain st.field st.voxelRange dx).d).d.store (dx.nextId + 3) =
        some { kind := .array, payload := .objArray [dx.nextId], rc := 1,
               params := [], committed := [] }
      exact b4
    · show (bindVolumeChain st.world dx.nextId (buildVolumeChain st.field st.voxelRange dx).d).d.store dx.nextId =
        some { kind := .volume, payload := .noPayload, rc := 1,
               params := volParams st.field (dx.nextId + 1) (dx.nextId + 2) st.voxelRange,
               committed :=
                 volParams st.field (dx.nextId + 1) (dx.nextId + 2) st.voxelRange }
      rw [b5]
    · show (bindVolumeChain st.world dx.nextId (buildVolumeChain st.field st.voxelRange dx).d).d.store (dx.nextId + 1) =
        some { kind := .array, payload := .colorArray rampColors, rc := 1,
               params := [], committed := [] }
      rw [b6 (dx.nextId + 1) (by omega) (by omega) (by omega)]
      exact v6
    · show (bindVolumeChain st.world dx.nextId (buildVolumeChain st.field st.voxelRange dx).d).d.store (dx.nextId + 2) =
        some { kind := .array, payload := .opacityArray rampOpacities,
               rc := 1, params := [], committed := [] }
      rw [b6 (dx.nextId + 2) (by omega) (by omega) (by omega)]
      exact v7
    · refine Or.inr ⟨hfpos, ?_, hfw, ?_, ?_, ?_, ?_,
        { fo with rc := fo.rc + 2 }, ?_, by simp [hforc]⟩
      · show st.field < (bindVolumeChain st.world dx.nextId (buildVolumeChain st.field st.voxelRange dx).d).d.nextId
        omega
      · show st.field ≠ dx.nextId + 3
        omega
      · show st.field ≠ dx.nextId
        omega
      · show st.field ≠ dx.nextId + 1
        omega
      · show st.field ≠ dx.nextId + 2
        omega
      · show (bindVolumeChain st.world dx.nextId (buildVolumeChain st.field st.voxelRange dx).d).d.store st.field = some { fo with rc := fo.rc + 2 }
        rw [b6 st.field hfw (by omega) (by omega)]
        exact v8

set_option maxHeartbeats 1000000 in
/-- The startup setup establishes the generation-shape invariant in all
three source branches, together with the branch-specific facts the
specification claims. -/
theorem setup_shape (env : Env) (g : Globals) (app : AppState)
    (d : DState) (info : SetupInfo)
    (hs : setupScene env g = some (app, d, info)) :
    GenShape app d info.gen ∧ info.volume = info.gen.v ∧
    app.field = info.gen.f ∧
    (rawCond env g = true →
      app.voxelRange = env.rawField.dataRange ∧ app.sdata = env.rawField ∧
      info.source = .raw) ∧
    (rawCond env g = false → env.niftiOpenOk = false →
      info.gen.f = 0 ∧ app.voxelRange = ⟨0, 0⟩ ∧
      info.source = .noSource) := by
  by_cases hr : rawCond env g = true
  · -- raw-reader branch
    simp only [setupScene, hr, if_true, Option.some.injEq] at hs
    obtain ⟨s1, s2, s3, s4, s5⟩ :=
      buildFieldChain_shape env.rawField g.dimX g.dimY g.dimZ (DState.init.newObject .world .noPayload).snd
    obtain ⟨fo, hsfo, hforc⟩ := s4
    have hD1 : ((DState.init.newObject .world .noPayload).snd).nextId = 2 := rfl
    rw [← s1] at hsfo
    have hfld : (buildFieldChain env.rawField g.dimX g.dimY g.dimZ (DState.init.newObject .world .noPayload).snd).fst = 2 := s1.trans hD1
    have e1 : (1 : Nat) < (buildFieldChain env.rawField g.dimX g.dimY g.dimZ (DState.init.newObject .world .noPayload).snd).snd.nextId := by omega
    have e2 : (0 : Nat) < (buildFieldChain env.rawField g.dimX g.dimY g.dimZ (DState.init.newObject .world .noPayload).snd).fst := by omega
    have e3 : (buildFieldChain env.rawField g.dimX g.dimY g.dimZ (DState.init.newObject .world .noPayload).snd).fst < (buildFieldChain env.rawField g.dimX g.dimY g.dimZ (DState.init.newObject .world .noPayload).snd).snd.nextId := by omega
    have e4 : (buildFieldChain env.rawField g.dimX g.dimY g.dimZ (DState.init.newObject .world .noPayload).snd).fst ≠ 1 := by omega
    have e5 : (buildFieldChain env.rawField g.dimX g.dimY g.dimZ (DState.init.newObject .world .noPayload).snd).snd.store 1 =
        some { kind := .world, payload := .noPayload, rc := 1,
               params := [], committed := [] } :=
      (s5 1 (by omega)).trans rfl
    obtain ⟨gs, hvol, happ, hsrc, hgenf⟩ :=
      finishSetup_shape _ _ _ app d info hs Nat.one_pos e1 e5
        (Or.inr ⟨e2, e3, e4, fo, hsfo, hforc⟩)
    refine ⟨gs, hvol, ?_, fun _ => ⟨?_, ?_, hsrc⟩, fun hrf _ => ?_⟩
    · rw [happ, hgenf]
    · rw [happ]
    · rw [happ]
    · rw [hr] at hrf
      cases hrf
  by_cases hn : env.niftiOpenOk = true
  · -- NIfTI-reader branch
    simp only [Bool.not_eq_true] at hr
    cases hgf : niftiGetField env true
        (LacReader.setActiveLut
          { numLuts := env.lacNumLuts, activeLut := 0 } g.laclutid) with
    | none =>
        simp only [setupScene, hr, hn, hgf, if_true, Bool.false_eq_true,
          if_false] at hs
        exact Option.noConfusion hs
    | some data =>
        simp only [setupScene, hr, hn, hgf, if_true, Bool.false_eq_true,
          if_false, Option.some.injEq] at hs
        obtain ⟨s1, s2, s3, s4, s5⟩ :=
          buildFieldChain_shape data data.dimX data.dimY data.dimZ (DState.init.newObject .world .noPayload).snd
        obtain ⟨fo, hsfo, hforc⟩ := s4
        have hD1 : ((DState.init.newObject .world .noPayload).snd).nextId = 2 := rfl
        rw [← s1] at hsfo
        have hfld : (buildFieldChain data data.dimX data.dimY data.dimZ (DState.init.newObject .world .noPayload).snd).fst = 2 := s1.trans hD1
        have e1 : (1 : Nat) < (buildFieldChain data data.dimX data.dimY data.dimZ (DState.init.newObject .world .noPayload).snd).snd.nextId := by omega
        have e2 : (0 : Nat) < (buildFieldChain data data.dimX data.dimY data.dimZ (DState.init.newObject .world .noPayload).snd).fst := by omega
        have e3 : (buildFieldChain data data.dimX data.dimY data.dimZ (DState.init.newObject .world .noPayload).snd).fst < (buildFieldChain data data.dimX data.dimY data.dimZ (DState.init.newObject .world .noPayload).snd).snd.nextId := by omega
        have e4 : (buildFieldChain data data.dimX data.dimY data.dimZ (DState.init.newObject .world .noPayload).snd).fst ≠ 1 := by omega
        have e5 : (buildFieldChain data data.dimX data.dimY data.dimZ (DState.init.newObject .world .noPayload).snd).snd.store 1 =
            some { kind := .world, payload := .noPayload, rc := 1,
                   params := [], committed := [] } :=
          (s5 1 (by omega)).trans rfl
        obtain ⟨gs, hvol, happ, hsrc, hgenf⟩ :=
          finishSetup_shape _ _ _ app d info hs Nat.one_pos e1 e5
            (Or.inr ⟨e2, e3, e4, fo, hsfo, hforc⟩)
        refine ⟨gs, hvol, ?_, fun hrf => ?_, fun _ hnf => ?_⟩
        · rw [happ, hgenf]
        · rw [hrf] at hr
          cases hr
        · rw [hnf] at hn
          cases hn
  · -- no source opened
    simp only [Bool.not_eq_true] at hr hn
    simp only [setupScene, hr, hn, Bool.false_eq_true, if_false,
      Option.some.injEq] at hs
    obtain ⟨gs, hvol, happ, hsrc, hgenf⟩ :=
      finishSetup_shape _ _ _ app d info hs Nat.one_pos Nat.one_lt_two
        rfl (Or.inl rfl)
    refine ⟨gs, hvol, ?_, fun hrf => ?_, fun _ _ => ⟨?_, ?_, hsrc⟩⟩
    · rw [happ, hgenf]
    · rw [hrf] at hr
      cases hr
    · exact hgenf
    · rw [happ]

set_option maxHeartbeats 2000000 in
/-- A successful lookup-table rebuild preserves the generation-shape
invariant: it builds a fresh field/volume/array generation, binds it
into the world and leaves the state in shape again, with the new
`sdata` and value range taken from the NIfTI reader's field for the
selected LUT. -/
theorem rebuild_shape (env : Env) (i : Nat) (app : AppState) (d : DState)
    (gen : Gen) (hg : GenShape app d gen)
    (hsucc : (updateLacLut env i app d).2.success = true) :
    GenShape (updateLacLut env i app d).1.1 (updateLacLut env i app d).1.2
      (updateLacLut env i app d).2.gen ∧
    (updateLacLut env i app d).2.newVolume =
      (updateLacLut env i app d).2.gen.v ∧
    (updateLacLut env i app d).2.newField =
      (updateLacLut env i app d).2.gen.f ∧
    (updateLacLut env i app d).1.1.field =
      (updateLacLut env i app d).2.gen.f ∧
    (updateLacLut env i app d).1.1.world = app.world ∧
    (updateLacLut env i app d).1.1.voxelRange =
      (env.niftiFieldAt i).dataRange ∧
    (updateLacLut env i app d).1.1.sdata = env.niftiFieldAt i ∧
    (updateLacLut env i app d).2.gen.f ≠ 0 := by
  obtain ⟨hb1, hb2, hb3, hb4, hb5, hb6, hb7, hb8, hb9, hb10⟩ := hg.bounds
  obtain ⟨q1, q2, q3, q4, q5, q6, q7, q8, q9, q10⟩ := hg.distinct
  cases hgf : niftiGetField env app.niftiOpened
      (app.lacReader.setActiveLut i) with
  | none =>
      rw [updateLacLut] at hsucc
      simp only [hgf] at hsucc
      cases hsucc
  | some data =>
      have hdata : data = env.niftiFieldAt i :=
        niftiGetField_some env app.niftiOpened
          (app.lacReader.setActiveLut i) data hgf
      simp only [updateLacLut, hgf]
      rcases hg.fShape with hgf0 |
        ⟨ffpos, fflt, fnw, fna, fnv, fnc, fno, fo2, hsfo2, hfo2rc⟩
      · -- the previous generation had no field
        obtain ⟨s1, s2, s3, s4, s5⟩ :=
          buildFieldChain_shape data data.dimX data.dimY data.dimZ d
        obtain ⟨fo, hsfo, hforc⟩ := s4
        rw [← s1] at hsfo
        obtain ⟨v1, v2, v3, v4, v5, v6, v7, v8, v9⟩ :=
          buildVolumeChain_pos (buildFieldChain data data.dimX data.dimY data.dimZ d).fst data.dataRange (buildFieldChain data data.dimX data.dimY data.dimZ d).snd fo
            (by omega) (by omega) hsfo
        have oldframe : ∀ x, x < d.nextId → (buildVolumeChain (buildFieldChain data data.dimX data.dimY data.dimZ d).fst data.dataRange (buildFieldChain data data.dimX data.dimY data.dimZ d).snd).d.store x = d.store x :=
          fun x hx =>
            (v9 x (by omega) (by omega) (by omega) (by omega)).trans (s5 x hx)
        have hbb2 : (buildVolumeChain (buildFieldChain data data.dimX data.dimY data.dimZ d).fst data.dataRange (buildFieldChain data data.dimX data.dimY data.dimZ d).snd).d.nextId = (buildFieldChain data data.dimX data.dimY data.dimZ d).snd.nextId + 3 := v4
        have hsv2x := hg.vStore
        rw [hgf0] at hsv2x
        obtain ⟨b1, b2, b3, b4, b5, b6, b7, b8, b9, bframe⟩ :=
          bindVolumeChain_replaceNull app.world (buildFieldChain data data.dimX data.dimY data.dimZ d).snd.nextId gen.a gen.v gen.c gen.o
            (buildVolumeChain (buildFieldChain data data.dimX data.dimY data.dimZ d).fst data.dataRange (buildFieldChain data data.dimX data.dimY data.dimZ d).snd).d
            { kind := .world, payload := .noPayload, rc := 1,
              params := [("volume", .obj gen.a)],
              committed := [("volume", .obj gen.a)] }
            { kind := .volume, payload := .noPayload, rc := 1,
              params := volParams (buildFieldChain data data.dimX data.dimY data.dimZ d).fst ((buildFieldChain data data.dimX data.dimY data.dimZ d).snd.nextId + 1) ((buildFieldChain data data.dimX data.dimY data.dimZ d).snd.nextId + 2)
                data.dataRange,
              committed := volParams (buildFieldChain data data.dimX data.dimY data.dimZ d).fst ((buildFieldChain data data.dimX data.dimY data.dimZ d).snd.nextId + 1) ((buildFieldChain data data.dimX data.dimY data.dimZ d).snd.nextId + 2)
                data.dataRange }
            app.voxelRange rampColors rampOpacities
            (volParams 0 gen.c gen.o app.voxelRange)
            (by omega) (by omega) (by omega) (by omega) (by omega) (by omega)
            (by omega) (by omega) (by omega) (by omega) (by omega)
            (by omega) q1 q2 q3 q4 (by omega) (by omega) (by omega)
            (by omega) q5 q6 q7 q8 q9 q10
            ((oldframe app.world (by omega)).trans hg.wStore) rfl
            ((oldframe gen.a (by omega)).trans hg.aStore)
            ((oldframe gen.v (by omega)).trans hsv2x)
            ((oldframe gen.c (by omega)).trans hg.cStore)
            ((oldframe gen.o (by omega)).trans hg.oStore)
            v5 rfl
        refine ⟨⟨rfl, ?_, ?_, ?_, ?_, ?_, ?_, ?_, ?_⟩,
          trivial, trivial, trivial, trivial, ?_, hdata, ?_⟩
        · show 0 < app.world ∧ app.world < (bindVolumeChain app.world (buildFieldChain data data.dimX data.dimY data.dimZ d).snd.nextId (buildVolumeChain (buildFieldChain data data.dimX data.dimY data.dimZ d).fst data.dataRange (buildFieldChain data data.dimX data.dimY data.dimZ d).snd).d).d.nextId ∧
            0 < (buildVolumeChain (buildFieldChain data data.dimX data.dimY data.dimZ d).fst data.dataRange (buildFieldChain data data.dimX data.dimY data.dimZ d).snd).d.nextId ∧ (buildVolumeChain (buildFieldChain data data.dimX data.dimY data.dimZ d).fst data.dataRange (buildFieldChain data data.dimX data.dimY data.dimZ d).snd).d.nextId < (bindVolumeChain app.world (buildFieldChain data data.dimX data.dimY data.dimZ d).snd.nextId (buildVolumeChain (buildFieldChain data data.dimX data.dimY data.dimZ d).fst data.dataRange (buildFieldChain data data.dimX data.dimY data.dimZ d).snd).d).d.nextId ∧
            0 < (buildFieldChain data data.dimX data.dimY data.dimZ d).snd.nextId ∧ (buildFieldChain data data.dimX data.dimY data.dimZ d).snd.nextId < (bindVolumeChain app.world (buildFieldChain data data.dimX data.dimY data.dimZ d).snd.nextId (buildVolumeChain (buildFieldChain data data.dimX data.dimY data.dimZ d).fst data.dataRange (buildFieldChain data data.dimX data.dimY data.dimZ d).snd).d).d.nextId ∧
            0 < (buildVolumeChain (buildFieldChain data data.dimX data.dimY data.dimZ d).fst data.dataRange (buildFieldChain data data.dimX data.dimY data.dimZ d).snd).cArr ∧ (buildVolumeChain (buildFieldChain data data.dimX data.dimY data.dimZ d).fst data.dataRange (buildFieldChain data data.dimX data.dimY data.dimZ d).snd).cArr < (bindVolumeChain app.world (buildFieldChain data data.dimX data.dimY data.dimZ d).snd.nextId (buildVolumeChain (buildFieldChain data data.dimX data.dimY data.dimZ d).fst data.dataRange (buildFieldChain data data.dimX data.dimY data.dimZ d).snd).d).d.nextId ∧
            0 < (buildVolumeChain (buildFieldChain data data.dimX data.dimY data.dimZ d).fst data.dataRange (buildFieldChain data data.dimX data.dimY data.dimZ d).snd).oArr ∧ (buildVolumeChain (buildFieldChain data data.dimX data.dimY data.dimZ d).fst data.dataRange (buildFieldChain data data.dimX data.dimY data.dimZ d).snd).oArr < (bindVolumeChain app.world (buildFieldChain data data.dimX data.dimY data.dimZ d).snd.nextId (buildVolumeChain (buildFieldChain data data.dimX data.dimY data.dimZ d).fst data.dataRange (buildFieldChain data data.dimX data.dimY data.dimZ d).snd).d).d.nextId
          omega
        · show app.world ≠ (buildVolumeChain (buildFieldChain data data.dimX data.dimY data.dimZ d).fst data.dataRange (buildFieldChain data data.dimX data.dimY data.dimZ d).snd).d.nextId ∧ app.world ≠ (buildFieldChain data data.dimX data.dimY data.dimZ d).snd.nextId ∧
            app.world ≠ (buildVolumeChain (buildFieldChain data data.dimX data.dimY data.dimZ d).fst data.dataRange (buildFieldChain data data.dimX data.dimY data.dimZ d).snd).cArr ∧ app.world ≠ (buildVolumeChain (buildFieldChain data data.dimX data.dimY data.dimZ d).fst data.dataRange (buildFieldChain data data.dimX data.dimY data.dimZ d).snd).oArr ∧
            (buildVolumeChain (buildFieldChain data data.dimX data.dimY data.dimZ d).fst data.dataRange (buildFieldChain data data.dimX data.dimY data.dimZ d).snd).d.nextId ≠ (buildFieldChain data data.dimX data.dimY data.dimZ d).snd.nextId ∧ (buildVolumeChain (buildFieldChain data data.dimX data.dimY data.dimZ d).fst data.dataRange (buildFieldChain data data.dimX data.dimY data.dimZ d).snd).d.nextId ≠ (buildVolumeChain (buildFieldChain data data.dimX data.dimY data.dimZ d).fst data.dataRange (buildFieldChain data data.dimX data.dimY data.dimZ d).snd).cArr ∧
            (buildVolumeChain (buildFieldChain data data.dimX data.dimY data.dimZ d).fst data.dataRange (buildFieldChain data data.dimX data.dimY data.dimZ d).snd).d.nextId ≠ (buildVolumeChain (buildFieldChain data data.dimX data.dimY data.dimZ d).fst data.dataRange (buildFieldChain data data.dimX data.dimY data.dimZ d).snd).oArr ∧ (buildFieldChain data data.dimX data.dimY data.dimZ d).snd.nextId ≠ (buildVolumeChain (buildFieldChain data data.dimX data.dimY data.dimZ d).fst data.dataRange (buildFieldChain data data.dimX data.dimY data.dimZ d).snd).cArr ∧
            (buildFieldChain data data.dimX data.dimY data.dimZ d).snd.nextId ≠ (buildVolumeChain (buildFieldChain data data.dimX data.dimY data.dimZ d).fst data.dataRange (buildFieldChain data data.dimX data.dimY data.dimZ d).snd).oArr ∧ (buildVolumeChain (buildFieldChain data data.dimX data.dimY data.dimZ d).fst data.dataRange (buildFieldChain data data.dimX data.dimY data.dimZ d).snd).cArr ≠ (buildVolumeChain (buildFieldChain data data.dimX data.dimY data.dimZ d).fst data.dataRange (buildFieldChain data data.dimX data.dimY data.dimZ d).snd).oArr
          omega
        · show (bindVolumeChain app.world (buildFieldChain data data.dimX data.dimY data.dimZ d).snd.nextId (buildVolumeChain (buildFieldChain data data.dimX data.dimY data.dimZ d).fst data.dataRange (buildFieldChain data data.dimX data.dimY data.dimZ d).snd).d).d.store app.world =
            some { kind := .world, payload := .noPayload, rc := 1,
                   params := [("volume", .obj (buildVolumeChain (buildFieldChain data data.dimX data.dimY data.dimZ d).fst data.dataRange (buildFieldChain data data.dimX data.dimY data.dimZ d).snd).d.nextId)],
                   committed := [("volume", .obj (buildVolumeChain (buildFieldChain data data.dimX data.dimY data.dimZ d).fst data.dataRange (buildFieldChain data data.dimX data.dimY data.dimZ d).snd).d.nextId)] }
          rw [b3]
        · show (bindVolumeChain app.world (buildFieldChain data data.dimX data.dimY data.dimZ d).snd.nextId (buildVolumeChain (buildFieldChain data data.dimX data.dimY data.dimZ d).fst data.dataRange (buildFieldChain data data.dimX data.dimY data.dimZ d).snd).d).d.store (buildVolumeChain (buildFieldChain data data.dimX data.dimY data.dimZ d).fst data.dataRange (buildFieldChain data data.dimX data.dimY data.dimZ d).snd).d.nextId =
            some { kind := .array, payload := .objArray [(buildFieldChain data data.dimX data.dimY data.dimZ d).snd.nextId], rc := 1,
                   params := [], committed := [] }
          exact b4
        · show (bindVolumeChain app.world (buildFieldChain data data.dimX data.dimY data.dimZ d).snd.nextId (buildVolumeChain (buildFieldChain data data.dimX data.dimY data.dimZ d).fst data.dataRange (buildFieldChain data data.dimX data.dimY data.dimZ d).snd).d).d.store (buildFieldChain data data.dimX data.dimY data.dimZ d).snd.nextId =
            some { kind := .volume, payload := .noPayload, rc := 1,
                   params := volParams (buildFieldChain data data.dimX data.dimY data.dimZ d).fst (buildVolumeChain (buildFieldChain data data.dimX data.dimY data.dimZ d).fst data.dataRange (buildFieldChain data data.dimX data.dimY data.dimZ d).snd).cArr (buildVolumeChain (buildFieldChain data data.dimX data.dimY data.dimZ d).fst data.dataRange (buildFieldChain data data.dimX data.dimY data.dimZ d).snd).oArr
                     data.dataRange,
                   committed := volParams (buildFieldChain data data.dimX data.dimY data.dimZ d).fst (buildVolumeChain (buildFieldChain data data.dimX data.dimY data.dimZ d).fst data.dataRange (buildFieldChain data data.dimX data.dimY data.dimZ d).snd).cArr (buildVolumeChain (buildFieldChain data data.dimX data.dimY data.dimZ d).fst data.dataRange (buildFieldChain data data.dimX data.dimY data.dimZ d).snd).oArr
                     data.dataRange }
          rw [v2, v3, b5]
        · show (bindVolumeChain app.world (buildFieldChain data data.dimX data.dimY data.dimZ d).snd.nextId (buildVolumeChain (buildFieldChain data data.dimX data.dimY data.dimZ d).fst data.dataRange (buildFieldChain data data.dimX data.dimY data.dimZ d).snd).d).d.store (buildVolumeChain (buildFieldChain data data.dimX data.dimY data.dimZ d).fst data.dataRange (buildFieldChain data data.dimX data.dimY data.dimZ d).snd).cArr =
            some { kind := .array, payload := .colorArray rampColors, rc := 1,
                   params := [], committed := [] }
          rw [v2, bframe ((buildFieldChain data data.dimX data.dimY data.dimZ d).snd.nextId + 1) (by omega) (by omega) (by omega)
            (by omega) (by omega) (by omega) (by omega)]
          exact v6
        · show (bindVolumeChain app.world (buildFieldChain data data.dimX data.dimY data.dimZ d).snd.nextId (buildVolumeChain (buildFieldChain data data.dimX data.dimY data.dimZ d).fst data.dataRange (buildFieldChain data data.dimX data.dimY data.dimZ d).snd).d).d.store (buildVolumeChain (buildFieldChain data data.dimX data.dimY data.dimZ d).fst data.dataRange (buildFieldChain data data.dimX data.dimY data.dimZ d).snd).oArr =
            some { kind := .array, payload := .opacityArray rampOpacities,
                   rc := 1, params := [], committed := [] }
          rw [v3, bframe ((buildFieldChain data data.dimX data.dimY data.dimZ d).snd.nextId + 2) (by omega) (by omega) (by omega)
            (by omega) (by omega) (by omega) (by omega)]
          exact v7
        · refine Or.inr ⟨?_, ?_, ?_, ?_, ?_, ?_, ?_,
            { fo with rc := fo.rc + 2 }, ?_, by simp [hforc]⟩
          · show 0 < (buildFieldChain data data.dimX data.dimY data.dimZ d).fst
            omega
          · show (buildFieldChain data data.dimX data.dimY data.dimZ d).fst < (bindVolumeChain app.world (buildFieldChain data data.dimX data.dimY data.dimZ d).snd.nextId (buildVolumeChain (buildFieldChain data data.dimX data.dimY data.dimZ d).fst data.dataRange (buildFieldChain data data.dimX data.dimY data.dimZ d).snd).d).d.nextId
            omega
          · show (buildFieldChain data data.dimX data.dimY data.dimZ d).fst ≠ app.world
            omega
          · show (buildFieldChain data data.dimX data.dimY data.dimZ d).fst ≠ (buildVolumeChain (buildFieldChain data data.dimX data.dimY data.dimZ d).fst data.dataRange (buildFieldChain data data.dimX data.dimY data.dimZ d).snd).d.nextId
            omega
          · show (buildFieldChain data data.dimX data.dimY data.dimZ d).fst ≠ (buildFieldChain data data.dimX data.dimY data.dimZ d).snd.nextId
            omega
          · show (buildFieldChain data data.dimX data.dimY data.dimZ d).fst ≠ (buildVolumeChain (buildFieldChain data data.dimX data.dimY data.dimZ d).fst data.dataRange (buildFieldChain data data.dimX data.dimY data.dimZ d).snd).cArr
            omega
          · show (buildFieldChain data data.dimX data.dimY data.dimZ d).fst ≠ (buildVolumeChain (buildFieldChain data data.dimX data.dimY data.dimZ d).fst data.dataRange (buildFieldChain data data.dimX data.dimY data.dimZ d).snd).oArr
            omega
          · show (bindVolumeChain app.world (buildFieldChain data data.dimX data.dimY data.dimZ d).snd.nextId (buildVolumeChain (buildFieldChain data data.dimX data.dimY data.dimZ d).fst data.dataRange (buildFieldChain data data.dimX data.dimY data.dimZ d).snd).d).d.store (buildFieldChain data data.dimX data.dimY data.dimZ d).fst = some { fo with rc := fo.rc + 2 }
            rw [bframe (buildFieldChain data data.dimX data.dimY data.dimZ d).fst (by omega) (by omega) (by omega)
              (by omega) (by omega) (by omega) (by omega)]
            exact v8
        · show data.dataRange = (env.niftiFieldAt i).dataRange
          rw [hdata]
        · show (buildFieldChain data data.dimX data.dimY data.dimZ d).fst ≠ 0
          omega
      · -- the previous generation holds a field with reference count 3
        obtain ⟨s1, s2, s3, s4, s5⟩ :=
          buildFieldChain_shape data data.dimX data.dimY data.dimZ d
        obtain ⟨fo, hsfo, hforc⟩ := s4
        rw [← s1] at hsfo
        obtain ⟨v1, v2, v3, v4, v5, v6, v7, v8, v9⟩ :=
          buildVolumeChain_pos (buildFieldChain data data.dimX data.dimY data.dimZ d).fst data.dataRange (buildFieldChain data data.dimX data.dimY data.dimZ d).snd fo
            (by omega) (by omega) hsfo
        have oldframe : ∀ x, x < d.nextId → (buildVolumeChain (buildFieldChain data data.dimX data.dimY data.dimZ d).fst data.dataRange (buildFieldChain data data.dimX data.dimY data.dimZ d).snd).d.store x = d.store x :=
          fun x hx =>
            (v9 x (by omega) (by omega) (by omega) (by omega)).trans (s5 x hx)
        have hbb2 : (buildVolumeChain (buildFieldChain data data.dimX data.dimY data.dimZ d).fst data.dataRange (buildFieldChain data data.dimX data.dimY data.dimZ d).snd).d.nextId = (buildFieldChain data data.dimX data.dimY data.dimZ d).snd.nextId + 3 := v4
        obtain ⟨b1, b2, b3, b4, b5, b6, b7, bf, b8, b9, bframe⟩ :=
          bindVolumeChain_replace app.world (buildFieldChain data data.dimX data.dimY data.dimZ d).snd.nextId gen.a gen.v gen.c gen.o
            gen.f (buildVolumeChain (buildFieldChain data data.dimX data.dimY data.dimZ d).fst data.dataRange (buildFieldChain data data.dimX data.dimY data.dimZ d).snd).d
            { kind := .world, payload := .noPayload, rc := 1,
              params := [("volume", .obj gen.a)],
              committed := [("volume", .obj gen.a)] }
            { kind := .volume, payload := .noPayload, rc := 1,
              params := volParams (buildFieldChain data data.dimX data.dimY data.dimZ d).fst ((buildFieldChain data data.dimX data.dimY data.dimZ d).snd.nextId + 1) ((buildFieldChain data data.dimX data.dimY data.dimZ d).snd.nextId + 2)
                data.dataRange,
              committed := volParams (buildFieldChain data data.dimX data.dimY data.dimZ d).fst ((buildFieldChain data data.dimX data.dimY data.dimZ d).snd.nextId + 1) ((buildFieldChain data data.dimX data.dimY data.dimZ d).snd.nextId + 2)
                data.dataRange }
            fo2 app.voxelRange rampColors rampOpacities
            (volParams gen.f gen.c gen.o app.voxelRange)
            (by omega) (by omega) (by omega) (by omega) (by omega) (by omega)
            (by omega)
            (by omega) (by omega) (by omega) (by omega) (by omega) (by omega)
            (by omega) q1 q2 q3 q4 (Ne.symm fnw) (by omega) (by omega)
            (by omega) (by omega) (by omega) q5 q6 q7 (Ne.symm fna) q8 q9
            (Ne.symm fnv) q10 (Ne.symm fnc) (Ne.symm fno)
            ((oldframe app.world (by omega)).trans hg.wStore) rfl
            ((oldframe gen.a (by omega)).trans hg.aStore)
            ((oldframe gen.v (by omega)).trans hg.vStore)
            ((oldframe gen.c (by omega)).trans hg.cStore)
            ((oldframe gen.o (by omega)).trans hg.oStore)
            ((oldframe gen.f (by omega)).trans hsfo2) hfo2rc
            v5 rfl
        refine ⟨⟨rfl, ?_, ?_, ?_, ?_, ?_, ?_, ?_, ?_⟩,
          trivial, trivial, trivial, trivial, ?_, hdata, ?_⟩
        · show 0 < app.world ∧ app.world < (bindVolumeChain app.world (buildFieldChain data data.dimX data.dimY data.dimZ d).snd.nextId (buildVolumeChain (buildFieldChain data data.dimX data.dimY data.dimZ d).fst data.dataRange (buildFieldChain data data.dimX data.dimY data.dimZ d).snd).d).d.nextId ∧
            0 < (buildVolumeChain (buildFieldChain data data.dimX data.dimY data.dimZ d).fst data.dataRange (buildFieldChain data data.dimX data.dimY data.dimZ d).snd).d.nextId ∧ (buildVolumeChain (buildFieldChain data data.dimX data.dimY data.dimZ d).fst data.dataRange (buildFieldChain data data.dimX data.dimY data.dimZ d).snd).d.nextId < (bindVolumeChain app.world (buildFieldChain data data.dimX data.dimY data.dimZ d).snd.nextId (buildVolumeChain (buildFieldChain data data.dimX data.dimY data.dimZ d).fst data.dataRange (buildFieldChain data data.dimX data.dimY data.dimZ d).snd).d).d.nextId ∧
            0 < (buildFieldChain data data.dimX data.dimY data.dimZ d).snd.nextId ∧ (buildFieldChain data data.dimX data.dimY data.dimZ d).snd.nextId < (bindVolumeChain app.world (buildFieldChain data data.dimX data.dimY data.dimZ d).snd.nextId (buildVolumeChain (buildFieldChain data data.dimX data.dimY data.dimZ d).fst data.dataRange (buildFieldChain data data.dimX data.dimY data.dimZ d).snd).d).d.nextId ∧
            0 < (buildVolumeChain (buildFieldChain data data.dimX data.dimY data.dimZ d).fst data.dataRange (buildFieldChain data data.dimX data.dimY data.dimZ d).snd).cArr ∧ (buildVolumeChain (buildFieldChain data data.dimX data.dimY data.dimZ d).fst data.dataRange (buildFieldChain data data.dimX data.dimY data.dimZ d).snd).cArr < (bindVolumeChain app.world (buildFieldChain data data.dimX data.dimY data.dimZ d).snd.nextId (buildVolumeChain (buildFieldChain data data.dimX data.dimY data.dimZ d).fst data.dataRange (buildFieldChain data data.dimX data.dimY data.dimZ d).snd).d).d.nextId ∧
            0 < (buildVolumeChain (buildFieldChain data data.dimX data.dimY data.dimZ d).fst data.dataRange (buildFieldChain data data.dimX data.dimY data.dimZ d).snd).oArr ∧ (buildVolumeChain (buildFieldChain data data.dimX data.dimY data.dimZ d).fst data.dataRange (buildFieldChain data data.dimX data.dimY data.dimZ d).snd).oArr < (bindVolumeChain app.world (buildFieldChain data data.dimX data.dimY data.dimZ d).snd.nextId (buildVolumeChain (buildFieldChain data data.dimX data.dimY data.dimZ d).fst data.dataRange (buildFieldChain data data.dimX data.dimY data.dimZ d).snd).d).d.nextId
          omega
        · show app.world ≠ (buildVolumeChain (buildFieldChain data data.dimX data.dimY data.dimZ d).fst data.dataRange (buildFieldChain data data.dimX data.dimY data.dimZ d).snd).d.nextId ∧ app.world ≠ (buildFieldChain data data.dimX data.dimY data.dimZ d).snd.nextId ∧
            app.world ≠ (buildVolumeChain (buildFieldChain data data.dimX data.dimY data.dimZ d).fst data.dataRange (buildFieldChain data data.dimX data.dimY data.dimZ d).snd).cArr ∧ app.world ≠ (buildVolumeChain (buildFieldChain data data.dimX data.dimY data.dimZ d).fst data.dataRange (buildFieldChain data data.dimX data.dimY data.dimZ d).snd).oArr ∧
            (buildVolumeChain (buildFieldChain data data.dimX data.dimY data.dimZ d).fst data.dataRange (buildFieldChain data data.dimX data.dimY data.dimZ d).snd).d.nextId ≠ (buildFieldChain data data.dimX data.dimY data.dimZ d).snd.nextId ∧ (buildVolumeChain (buildFieldChain data data.dimX data.dimY data.dimZ d).fst data.dataRange (buildFieldChain data data.dimX data.dimY data.dimZ d).snd).d.nextId ≠ (buildVolumeChain (buildFieldChain data data.dimX data.dimY data.dimZ d).fst data.dataRange (buildFieldChain data data.dimX data.dimY data.dimZ d).snd).cArr ∧
            (buildVolumeChain (buildFieldChain data data.dimX data.dimY data.dimZ d).fst data.dataRange (buildFieldChain data data.dimX data.dimY data.dimZ d).snd).d.nextId ≠ (buildVolumeChain (buildFieldChain data data.dimX data.dimY data.dimZ d).fst data.dataRange (buildFieldChain data data.dimX data.dimY data.dimZ d).snd).oArr ∧ (buildFieldChain data data.dimX data.dimY data.dimZ d).snd.nextId ≠ (buildVolumeChain (buildFieldChain data data.dimX data.dimY data.dimZ d).fst data.dataRange (buildFieldChain data data.dimX data.dimY data.dimZ d).snd).cArr ∧
            (buildFieldChain data data.dimX data.dimY data.dimZ d).snd.nextId ≠ (buildVolumeChain (buildFieldChain data data.dimX data.dimY data.dimZ d).fst data.dataRange (buildFieldChain data data.dimX data.dimY data.dimZ d).snd).oArr ∧ (buildVolumeChain (buildFieldChain data data.dimX data.dimY data.dimZ d).fst data.dataRange (buildFieldChain data data.dimX data.dimY data.dimZ d).snd).cArr ≠ (buildVolumeChain (buildFieldChain data data.dimX data.dimY data.dimZ d).fst data.dataRange (buildFieldChain data data.dimX data.dimY data.dimZ d).snd).oArr
          omega
        · show (bindVolumeChain app.world (buildFieldChain data data.dimX data.dimY data.dimZ d).snd.nextId (buildVolumeChain (buildFieldChain data data.dimX data.dimY data.dimZ d).fst data.dataRange (buildFieldChain data data.dimX data.dimY data.dimZ d).snd).d).d.store app.world =
            some { kind := .world, payload := .noPayload, rc := 1,
                   params := [("volume", .obj (buildVolumeChain (buildFieldChain data data.dimX data.dimY data.dimZ d).fst data.dataRange (buildFieldChain data data.dimX data.dimY data.dimZ d).snd).d.nextId)],
                   committed := [("volume", .obj (buildVolumeChain (buildFieldChain data data.dimX data.dimY data.dimZ d).fst data.dataRange (buildFieldChain data data.dimX data.dimY data.dimZ d).snd).d.nextId)] }
          rw [b3]
        · show (bindVolumeChain app.world (buildFieldChain data data.dimX data.dimY data.dimZ d).snd.nextId (buildVolumeChain (buildFieldChain data data.dimX data.dimY data.dimZ d).fst data.dataRange (buildFieldChain data data.dimX data.dimY data.dimZ d).snd).d).d.store (buildVolumeChain (buildFieldChain data data.dimX data.dimY data.dimZ d).fst data.dataRange (buildFieldChain data data.dimX data.dimY data.dimZ d).snd).d.nextId =
            some { kind := .array, payload := .objArray [(buildFieldChain data data.dimX data.dimY data.dimZ d).snd.nextId], rc := 1,
                   params := [], committed := [] }
          exact b4
        · show (bindVolumeChain app.world (buildFieldChain data data.dimX data.dimY data.dimZ d).snd.nextId (buildVolumeChain (buildFieldChain data data.dimX data.dimY data.dimZ d).fst data.dataRange (buildFieldChain data data.dimX data.dimY data.dimZ d).snd).d).d.store (buildFieldChain data data.dimX data.dimY data.dimZ d).snd.nextId =
            some { kind := .volume, payload := .noPayload, rc := 1,
                   params := volParams (buildFieldChain data data.dimX data.dimY data.dimZ d).fst (buildVolumeChain (buildFieldChain data data.dimX data.dimY data.dimZ d).fst data.dataRange (buildFieldChain data data.dimX data.dimY data.dimZ d).snd).cArr (buildVolumeChain (buildFieldChain data data.dimX data.dimY data.dimZ d).fst data.dataRange (buildFieldChain data data.dimX data.dimY data.dimZ d).snd).oArr
                     data.dataRange,
                   committed := volParams (buildFieldChain data data.dimX data.dimY data.dimZ d).fst (buildVolumeChain (buildFieldChain data data.dimX data.dimY data.dimZ d).fst data.dataRange (buildFieldChain data data.dimX data.dimY data.dimZ d).snd).cArr (buildVolumeChain (buildFieldChain data data.dimX data.dimY data.dimZ d).fst data.dataRange (buildFieldChain data data.dimX data.dimY data.dimZ d).snd).oArr
                     data.dataRange }
          rw [v2, v3, b5]
        · show (bindVolumeChain app.world (buildFieldChain data data.dimX data.dimY data.dimZ d).snd.nextId (buildVolumeChain (buildFieldChain data data.dimX data.dimY data.dimZ d).fst data.dataRange (buildFieldChain data data.dimX data.dimY data.dimZ d).snd).d).d.store (buildVolumeChain (buildFieldChain data data.dimX data.dimY data.dimZ d).fst data.dataRange (buildFieldChain data data.dimX data.dimY data.dimZ d).snd).cArr =
            some { kind := .array, payload := .colorArray rampColors, rc := 1,
                   params := [], committed := [] }
          rw [v2, bframe ((buildFieldChain data data.dimX data.dimY data.dimZ d).snd.nextId + 1) (by omega) (by omega) (by omega)
            (by omega) (by omega) (by omega) (by omega) (by omega)]
          exact v6
        · show (bindVolumeChain app.world (buildFieldChain data data.dimX data.dimY data.dimZ d).snd.nextId (buildVolumeChain (buildFieldChain data data.dimX data.dimY data.dimZ d).fst data.dataRange (buildFieldChain data data.dimX data.dimY data.dimZ d).snd).d).d.store (buildVolumeChain (buildFieldChain data data.dimX data.dimY data.dimZ d).fst data.dataRange (buildFieldChain data data.dimX data.dimY data.dimZ d).snd).oArr =
            some { kind := .array, payload := .opacityArray rampOpacities,
                   rc := 1, params := [], committed := [] }
          rw [v3, bframe ((buildFieldChain data data.dimX data.dimY data.dimZ d).snd.nextId + 2) (by omega) (by omega) (by omega)
            (by omega) (by omega) (by omega) (by omega) (by omega)]
          exact v7
        · refine Or.inr ⟨?_, ?_, ?_, ?_, ?_, ?_, ?_,
            { fo with rc := fo.rc + 2 }, ?_, by simp [hforc]⟩
          · show 0 < (buildFieldChain data data.dimX data.dimY data.dimZ d).fst
            omega
          · show (buildFieldChain data data.dimX data.dimY data.dimZ d).fst < (bindVolumeChain app.world (buildFieldChain data data.dimX data.dimY data.dimZ d).snd.nextId (buildVolumeChain (buildFieldChain data data.dimX data.dimY data.dimZ d).fst data.dataRange (buildFieldChain data data.dimX data.dimY data.dimZ d).snd).d).d.nextId
            omega
          · show (buildFieldChain data data.dimX data.dimY data.dimZ d).fst ≠ app.world
            omega
          · show (buildFieldChain data data.dimX data.dimY data.dimZ d).fst ≠ (buildVolumeChain (buildFieldChain data data.dimX data.dimY data.dimZ d).fst data.dataRange (buildFieldChain data data.dimX data.dimY data.dimZ d).snd).d.nextId
            omega
          · show (buildFieldChain data data.dimX data.dimY data.dimZ d).fst ≠ (buildFieldChain data data.dimX data.dimY data.dimZ d).snd.nextId
            omega
          · show (buildFieldChain data data.dimX data.dimY data.dimZ d).fst ≠ (buildVolumeChain (buildFieldChain data data.dimX data.dimY data.dimZ d).fst data.dataRange (buildFieldChain data data.dimX data.dimY data.dimZ d).snd).cArr
            omega
          · show (buildFieldChain data data.dimX data.dimY data.dimZ d).fst ≠ (buildVolumeChain (buildFieldChain data data.dimX data.dimY data.dimZ d).fst data.dataRange (buildFieldChain data data.dimX data.dimY data.dimZ d).snd).oArr
            omega
          · show (bindVolumeChain app.world (buildFieldChain data data.dimX data.dimY data.dimZ d).snd.nextId (buildVolumeChain (buildFieldChain data data.dimX data.dimY data.dimZ d).fst data.dataRange (buildFieldChain data data.dimX data.dimY data.dimZ d).snd).d).d.store (buildFieldChain data data.dimX data.dimY data.dimZ d).fst = some { fo with rc := fo.rc + 2 }
            rw [bframe (buildFieldChain data data.dimX data.dimY data.dimZ d).fst (by omega) (by omega) (by omega)
              (by omega) (by omega) (by omega) (by omega) (by omega)]
            exact v8
        · show data.dataRange = (env.niftiFieldAt i).dataRange
          rw [hdata]
        · show (buildFieldChain data data.dimX data.dimY data.dimZ d).fst ≠ 0
          omega

/-- In a state satisfying the invariant, a renderer sampling the
committed world sees exactly the one-element volume array of the
current generation. -/
theorem genShape_boundVolumes (app : AppState) (d : DState) (g : Gen)
    (hg : GenShape app d g) : boundVolumes d app.world = some [g.v] := by
  simp [boundVolumes, DState.lookupCommitted, hg.wStore, lookupP,
    DState.payloadOf, hg.aStore]

/-- Committed parameters and ramp payloads of the current generation's
volume, read off the invariant. -/
theorem genShape_volLookups (app : AppState) (d : DState) (g : Gen)
    (hg : GenShape app d g) :
    d.lookupCommitted g.v "value" = some (.obj g.f) ∧
    d.lookupCommitted g.v "field" = some (.obj g.f) ∧
    d.lookupCommitted g.v "color" = some (.obj g.c) ∧
    d.lookupCommitted g.v "opacity" = some (.obj g.o) ∧
    d.lookupCommitted g.v "valueRange" = some (.box1 app.voxelRange) ∧
    d.payloadOf g.c = some (.colorArray rampColors) ∧
    d.payloadOf g.o = some (.opacityArray rampOpacities) := by
  refine ⟨?_, ?_, ?_, ?_, ?_, ?_, ?_⟩ <;>
    simp [DState.lookupCommitted, DState.payloadOf, hg.vStore,
      hg.cStore, hg.oStore, volParams, lookupP]

/-- The element-type mapping the specification states for
`FieldBuilder`: bytes-per-cell 1 selects 8-bit unsigned fixed point, 2
selects 16-bit unsigned fixed point, and 4 selects 32-bit float. -/
def elemTypeOf (b : Nat) : ElemType :=
  if b = 1 then .ufixed8 else if b = 2 then .ufixed16 else .float32

/-- The buffer the specification says the device array is built over:
the typed voxel buffer matching bytes-per-cell. -/
def bufferOf (data : StructuredField) : ScalarData :=
  if data.bytesPerCell = 1 then .u8 data.dataUI8
  else if data.bytesPerCell = 2 then .u16 data.dataUI16
  else .f32 data.dataF32

/-- Concrete 1-voxel field used to exercise the pipeline. -/
def demoData : StructuredField :=
  { dimX := 1, dimY := 1, dimZ := 1, bytesPerCell := 1,
    dataUI8 := [7], dataUI16 := [], dataF32 := [], dataRange := ⟨7, 7⟩ }

/-- Concrete session environment: the raw reader fails to open, the
NIfTI reader opens and serves `demoData` for every LUT of a 2-entry
catalog. -/
def env0 : Env :=
  { rawOpenOk := false, rawField := emptyField, niftiOpenOk := true,
    niftiFieldAt := fun _ => demoData, lacNumLuts := 2 }

/-- Concrete session environment in which no voxel source opens. -/
def env00 : Env :=
  { rawOpenOk := false, rawField := emptyField, niftiOpenOk := false,
    niftiFieldAt := fun _ => demoData, lacNumLuts := 2 }

/-- Concrete command-line globals: no raw dimensions, LUT 0. -/
def g0 : Globals :=
  { dimX := 0, dimY := 0, dimZ := 0, bytesPerCell := 0, laclutid := 0 }

/-- The state after startup in the concrete NIfTI session. -/
def out0 : AppState × DState × SetupInfo :=
  (setupScene env0 g0).get (by decide)

/-- The concrete startup run really produces `out0`. -/
theorem out0_spec : setupScene env0 g0 = some (out0.1, out0.2.1, out0.2.2) :=
  (Option.some_get (by decide)).symm

/-- The state after one successful LUT rebuild (to LUT 1) in the
concrete session. -/
def reb0 : (AppState × DState) × RebuildInfo :=
  updateLacLut env0 1 out0.1 out0.2.1

/-- The state after startup in the concrete no-source session. -/
def out00 : AppState × DState × SetupInfo :=
  (setupScene env00 g0).get (by decide)

/-- The concrete no-source startup really produces `out00`. -/
theorem out00_spec :
    setupScene env00 g0 = some (out00.1, out00.2.1, out00.2.2) :=
  (Option.some_get (by decide)).symm

/-!
The claims.
-/

/-- C1 (evidence of the code bug): the specification claims that for
every successful lookup-table rebuild the prior generation's field and
volume handles are each released exactly once, strictly after the new
generation is bound, no handle being released twice and the most recent
generation staying live.  In the concrete session the first rebuild
succeeds, yet the startup generation's field handle receives two
release operations (both device-internal, issued when the superseded
volume is destroyed and drops its two parameter roles) and is never
destroyed: the callback overwrites `m_state.field` (line 496) without
releasing it, so the prior field keeps a positive reference count
forever (a leak); the prior volume handle likewise receives two release
operations, its application release having happened before — not
after — the next generation's bind. -/
theorem C1_release_discipline_violated :
    reb0.2.success = true ∧
    reb0.1.2.releaseCount out0.1.field = 2 ∧
    0 < reb0.1.2.rcOf out0.1.field ∧
    reb0.1.2.releaseCount out0.2.2.gen.v = 2 ∧
    reb0.1.2.rcOf reb0.2.newVolume = 1 := by
  decide

/-- C2: if the voxel source fails during a lookup-table rebuild (the
selected index is at or beyond the catalog size), the rebuild aborts
before any new device objects are created or released — the device
state is unchanged — and the previously bound generation remains bound
and unchanged; only the stored LUT selection has moved. -/
theorem C2_invalid_lut_aborts_rebuild (env : Env) (i : Nat)
    (app : AppState) (d : DState) (h : app.lacReader.numLuts ≤ i) :
    (updateLacLut env i app d).1.2 = d ∧
    (updateLacLut env i app d).2.success = false ∧
    (updateLacLut env i app d).1.1 = { app with lacReader := app.lacReader.setActiveLut i } := by
  have hnone : niftiGetField env app.niftiOpened
      (app.lacReader.setActiveLut i) = none :=
    niftiGetField_none_of_ge _ _ _
      (by simpa [LacReader.setActiveLut] using h)
  simp [updateLacLut, hnone]

/-- Witness for C2 at the concrete session with LUT index 5 against a
catalog of size 2. -/
theorem C2_witness :
    (updateLacLut env0 5 out0.1 out0.2.1).1.2 = out0.2.1 ∧
    (updateLacLut env0 5 out0.1 out0.2.1).2.success = false ∧
    (updateLacLut env0 5 out0.1 out0.2.1).1.1 =
      { out0.1 with lacReader := out0.1.lacReader.setActiveLut 5 } :=
  C2_invalid_lut_aborts_rebuild env0 5 out0.1 out0.2.1 (by decide)

/-- Concrete field with an unsupported bytes-per-cell of 3. -/
def data3 : StructuredField :=
  { dimX := 1, dimY := 1, dimZ := 1, bytesPerCell := 3,
    dataUI8 := [], dataUI16 := [], dataF32 := [], dataRange := ⟨0, 0⟩ }

/-- C3 (counterexample): the claim that an unsupported bytes-per-cell
leaves the field's "data" parameter unset is false: the code passes the
uninitialized `scalar` variable to `setAndReleaseParameter`, so a
"data" binding is installed (with an indeterminate value) rather than
no binding at all. -/
theorem C3_counterexample :
    ¬((buildFieldChain data3 1 1 1 DState.init).snd.lookupParam
        (buildFieldChain data3 1 1 1 DState.init).fst "data" = none) := by
  decide

/-- C3 (amended): for every field whose bytes-per-cell is not 1, 2 or
4, field construction silently skips device array creation (exactly one
object — the field — is allocated), but it does not leave the "data"
parameter unset: the uninitialized `scalar` is passed to the
set-and-release call, installing an indeterminate "data" binding and
performing undefined behavior; no release is logged, the filter is
still set and committed, and no other object is touched. -/
theorem C3_unsupported_width_passes_indeterminate
    (data : StructuredField) (nx ny nz : Nat) (d : DState)
    (h1 : data.bytesPerCell ≠ 1) (h2 : data.bytesPerCell ≠ 2)
    (h4 : data.bytesPerCell ≠ 4) :
    (buildFieldChain data nx ny nz d).snd.nextId = d.nextId + 1 ∧
    (buildFieldChain data nx ny nz d).snd.lookupParam
      (buildFieldChain data nx ny nz d).fst "data" =
      some .indeterminate ∧
    (buildFieldChain data nx ny nz d).snd.lookupCommitted
      (buildFieldChain data nx ny nz d).fst "data" =
      some .indeterminate ∧
    (buildFieldChain data nx ny nz d).snd.lookupParam
      (buildFieldChain data nx ny nz d).fst "filter" =
      some (.str "linear") ∧
    (buildFieldChain data nx ny nz d).snd.ub = true ∧
    (buildFieldChain data nx ny nz d).snd.releaseLog = d.releaseLog ∧
    (∀ x, x ≠ d.nextId →
      (buildFieldChain data nx ny nz d).snd.store x = d.store x) := by
  obtain ⟨e1, e2, e3, e4, e5, e6⟩ :=
    buildFieldChain_bad data nx ny nz d h1 h2 h4
  rw [e1]
  exact ⟨e2, by simp [DState.lookupParam, e3, lookupP],
    by simp [DState.lookupCommitted, e3, lookupP],
    by simp [DState.lookupParam, e3, lookupP], e6, e5, e4⟩

/-- Witness for the amended C3 at the concrete 3-bytes-per-cell
field. -/
theorem C3_witness :
    (buildFieldChain data3 1 1 1 DState.init).snd.nextId =
      DState.init.nextId + 1 ∧
    (buildFieldChain data3 1 1 1 DState.init).snd.lookupParam
      (buildFieldChain data3 1 1 1 DState.init).fst "data" =
      some .indeterminate ∧
    (buildFieldChain data3 1 1 1 DState.init).snd.ub = true := by
  obtain ⟨a1, a2, a3, a4, a5, a6, a7⟩ :=
    C3_unsupported_width_passes_indeterminate data3 1 1 1 DState.init
      (by decide) (by decide) (by decide)
  exact ⟨a1, a2, a5⟩

/-- C4: for every field with bytes-per-cell in {1, 2, 4}, field
construction selects the matching device element type, builds the
device array over the matching voxel buffer with extents equal to the
grid dimensions (hence `dimX * dimY * dimZ` elements), sets it as the
field's "data" parameter with ownership transfer (the caller's
reference is released, leaving the field's single retain), sets the
"filter" parameter to "linear", and commits the field. -/
theorem C4_supported_width_builds_matching_array (data : StructuredField)
    (d : DState)
    (h : data.bytesPerCell = 1 ∨ data.bytesPerCell = 2 ∨
      data.bytesPerCell = 4) :
    (buildFieldChain data data.dimX data.dimY data.dimZ d).fst = d.nextId ∧
    (buildFieldChain data data.dimX data.dimY data.dimZ d).snd.payloadOf (d.nextId + 1) =
      some (.scalar3D (elemTypeOf data.bytesPerCell) data.dimX data.dimY
        data.dimZ (bufferOf data)) ∧
    ((buildFieldChain data data.dimX data.dimY data.dimZ d).snd.payloadOf (d.nextId + 1)).map Payload.numItems =
      some (data.dimX * data.dimY * data.dimZ) ∧
    (buildFieldChain data data.dimX data.dimY data.dimZ d).snd.lookupParam (buildFieldChain data data.dimX data.dimY data.dimZ d).fst "data" = some (.obj (d.nextId + 1)) ∧
    (buildFieldChain data data.dimX data.dimY data.dimZ d).snd.lookupCommitted (buildFieldChain data data.dimX data.dimY data.dimZ d).fst "data" =
      some (.obj (d.nextId + 1)) ∧
    (buildFieldChain data data.dimX data.dimY data.dimZ d).snd.rcOf (d.nextId + 1) = 1 ∧
    (buildFieldChain data data.dimX data.dimY data.dimZ d).snd.releaseCount (d.nextId + 1) =
      d.releaseCount (d.nextId + 1) + 1 ∧
    (buildFieldChain data data.dimX data.dimY data.dimZ d).snd.lookupParam (buildFieldChain data data.dimX data.dimY data.dimZ d).fst "filter" = some (.str "linear") ∧
    (buildFieldChain data data.dimX data.dimY data.dimZ d).snd.lookupCommitted (buildFieldChain data data.dimX data.dimY data.dimZ d).fst "filter" = some (.str "linear") ∧
    (buildFieldChain data data.dimX data.dimY data.dimZ d).snd.ub = d.ub := by
  rcases h with h | h | h
  · obtain ⟨e1, e2, e3, e4, e5, e6, e7⟩ :=
      buildFieldChain_bpc1 data data.dimX data.dimY data.dimZ d h
    refine ⟨e1, ?_, ?_, ?_, ?_, ?_, ?_, ?_, ?_, e7⟩
    · simp [DState.payloadOf, e4, elemTypeOf, bufferOf, h]
    · simp [DState.payloadOf, e4, Payload.numItems]
    · rw [e1]
      simp [DState.lookupParam, e3, lookupP]
    · rw [e1]
      simp [DState.lookupCommitted, e3, lookupP]
    · simp [DState.rcOf, e4]
    · simp [DState.releaseCount, e6, List.count_append]
    · rw [e1]
      simp [DState.lookupParam, e3, lookupP]
    · rw [e1]
      simp [DState.lookupCommitted, e3, lookupP]
  · obtain ⟨e1, e2, e3, e4, e5, e6, e7⟩ :=
      buildFieldChain_bpc2 data data.dimX data.dimY data.dimZ d h
    refine ⟨e1, ?_, ?_, ?_, ?_, ?_, ?_, ?_, ?_, e7⟩
    · simp [DState.payloadOf, e4, elemTypeOf, bufferOf, h]
    · simp [DState.payloadOf, e4, Payload.numItems]
    · rw [e1]
      simp [DState.lookupParam, e3, lookupP]
    · rw [e1]
      simp [DState.lookupCommitted, e3, lookupP]
    · simp [DState.rcOf, e4]
    · simp [DState.releaseCount, e6, List.count_append]
    · rw [e1]
      simp [DState.lookupParam, e3, lookupP]
    · rw [e1]
      simp [DState.lookupCommitted, e3, lookupP]
  · obtain ⟨e1, e2, e3, e4, e5, e6, e7⟩ :=
      buildFieldChain_bpc4 data data.dimX data.dimY data.dimZ d h
    refine ⟨e1, ?_, ?_, ?_, ?_, ?_, ?_, ?_, ?_, e7⟩
    · simp [DState.payloadOf, e4, elemTypeOf, bufferOf, h]
    · simp [DState.payloadOf, e4, Payload.numItems]
    · rw [e1]
      simp [DState.lookupParam, e3, lookupP]
    · rw [e1]
      simp [DState.lookupCommitted, e3, lookupP]
    · simp [DState.rcOf, e4]
    · simp [DState.releaseCount, e6, List.count_append]
    · rw [e1]
      simp [DState.lookupParam, e3, lookupP]
    · rw [e1]
      simp [DState.lookupCommitted, e3, lookupP]

/-- Witness for C4 at the concrete one-voxel 8-bit field. -/
theorem C4_witness :
    (buildFieldChain demoData demoData.dimX demoData.dimY demoData.dimZ
      DState.init).snd.payloadOf (DState.init.nextId + 1) =
      some (.scalar3D (elemTypeOf demoData.bytesPerCell) demoData.dimX
        demoData.dimY demoData.dimZ (bufferOf demoData)) ∧
    (buildFieldChain demoData demoData.dimX demoData.dimY demoData.dimZ
      DState.init).snd.rcOf (DState.init.nextId + 1) = 1 := by
  obtain ⟨a1, a2, a3, a4, a5, a6, a7, a8, a9, a10⟩ :=
    C4_supported_width_builds_matching_array demoData DState.init
      (Or.inl rfl)
  exact ⟨a2, a6⟩

/-- C5: after any successful build — the startup setup or a
lookup-table rebuild from any state satisfying the generation-shape
invariant — the world's committed "volume" parameter is a one-element
array holding exactly the newly built volume; no zero- or multi-volume
state is observable after the commit. -/
theorem C5_world_single_volume :
    (∀ env g app d info, setupScene env g = some (app, d, info) →
      boundVolumes d app.world = some [info.volume]) ∧
    (∀ env i app d gen, GenShape app d gen →
      (updateLacLut env i app d).2.success = true →
      boundVolumes (updateLacLut env i app d).1.2 (updateLacLut env i app d).1.1.world = some [(updateLacLut env i app d).2.newVolume]) := by
  constructor
  · intro env g app d info hs
    obtain ⟨gs, hvol, -, -, -⟩ := setup_shape env g app d info hs
    rw [hvol]
    exact genShape_boundVolumes _ _ _ gs
  · intro env i app d gen hg hsucc
    obtain ⟨gs, hvol, -, -, -, -, -, -⟩ :=
      rebuild_shape env i app d gen hg hsucc
    rw [hvol]
    exact genShape_boundVolumes _ _ _ gs

/-- Witness for C5 at the concrete session: startup and one successful
rebuild. -/
theorem C5_witness :
    boundVolumes out0.2.1 out0.1.world = some [out0.2.2.volume] ∧
    boundVolumes reb0.1.2 reb0.1.1.world = some [reb0.2.newVolume] := by
  refine ⟨C5_world_single_volume.1 env0 g0 out0.1 out0.2.1 out0.2.2
    out0_spec, ?_⟩
  exact C5_world_single_volume.2 env0 1 out0.1 out0.2.1 out0.2.2.gen
    (setup_shape env0 g0 out0.1 out0.2.1 out0.2.2 out0_spec).1
    (by decide)

/-- Concrete 32-bit-float field spanning the value range [-1, 3.5]. -/
def demoDataF : StructuredField :=
  { dimX := 2, dimY := 1, dimZ := 1, bytesPerCell := 4,
    dataUI8 := [], dataUI16 := [], dataF32 := [-1, 7/2],
    dataRange := ⟨-1, 7/2⟩ }

/-- Concrete session environment in which the raw reader opens and
serves `demoDataF`. -/
def envR : Env :=
  { rawOpenOk := true, rawField := demoDataF, niftiOpenOk := false,
    niftiFieldAt := fun _ => demoData, lacNumLuts := 2 }

/-- Concrete command-line globals matching `demoDataF`. -/
def gR : Globals :=
  { dimX := 2, dimY := 1, dimZ := 1, bytesPerCell := 4, laclutid := 0 }

/-- The state after startup in the concrete raw session. -/
def outR : AppState × DState × SetupInfo :=
  (setupScene envR gR).get (by decide)

/-- The concrete raw startup really produces `outR`. -/
theorem outR_spec :
    setupScene envR gR = some (outR.1, outR.2.1, outR.2.2) :=
  (Option.some_get (by decide)).symm

/-- C6: the volume committed by a successful build carries a
"valueRange" parameter equal to the loaded field's observed data range,
propagated unchanged — at startup from the raw reader's field, and on
every lookup-table rebuild from the NIfTI reader's field for the
selected LUT. -/
theorem C6_valueRange_propagated :
    (∀ env g app d info, rawCond env g = true →
      setupScene env g = some (app, d, info) →
      d.lookupCommitted info.volume "valueRange" =
        some (.box1 env.rawField.dataRange)) ∧
    (∀ env i app d gen, GenShape app d gen →
      (updateLacLut env i app d).2.success = true →
      (updateLacLut env i app d).1.2.lookupCommitted (updateLacLut env i app d).2.newVolume "valueRange" =
        some (.box1 (env.niftiFieldAt i).dataRange)) := by
  constructor
  · intro env g app d info hr hs
    obtain ⟨gs, hvol, -, hraw, -⟩ := setup_shape env g app d info hs
    obtain ⟨hrange, -, -⟩ := hraw hr
    rw [hvol, (genShape_volLookups _ _ _ gs).2.2.2.2.1, hrange]
  · intro env i app d gen hg hsucc
    obtain ⟨gs, hvol, -, -, -, hrange, -, -⟩ :=
      rebuild_shape env i app d gen hg hsucc
    rw [hvol, (genShape_volLookups _ _ _ gs).2.2.2.2.1, hrange]

/-- Witness for C6: the raw startup with float voxels spanning
[-1, 3.5] commits exactly that range, and the concrete rebuild commits
the NIfTI field's range. -/
theorem C6_witness :
    outR.2.1.lookupCommitted outR.2.2.volume "valueRange" =
      some (.box1 ⟨-1, 7/2⟩) ∧
    reb0.1.2.lookupCommitted reb0.2.newVolume "valueRange" =
      some (.box1 ⟨7, 7⟩) := by
  constructor
  · exact C6_valueRange_propagated.1 envR gR outR.1 outR.2.1 outR.2.2
      (by decide) outR_spec
  · exact C6_valueRange_propagated.2 env0 1 out0.1 out0.2.1 out0.2.2.gen
      (setup_shape env0 g0 out0.1 out0.2.1 out0.2.2 out0_spec).1
      (by decide)

/-- C7: every constructed transfer-function volume has both its "value"
and its "field" parameter set to the same field handle — the current
`m_state.field` — in the startup build and in every lookup-table-change
rebuild from a state satisfying the invariant. -/
theorem C7_value_and_field_same_handle :
    (∀ env g app d info, setupScene env g = some (app, d, info) →
      d.lookupCommitted info.volume "value" = some (.obj app.field) ∧
      d.lookupCommitted info.volume "field" = some (.obj app.field)) ∧
    (∀ env i app d gen, GenShape app d gen →
      (updateLacLut env i app d).2.success = true →
      (updateLacLut env i app d).1.2.lookupCommitted (updateLacLut env i app d).2.newVolume "value" =
        some (.obj (updateLacLut env i app d).2.newField) ∧
      (updateLacLut env i app d).1.2.lookupCommitted (updateLacLut env i app d).2.newVolume "field" =
        some (.obj (updateLacLut env i app d).2.newField)) := by
  constructor
  · intro env g app d info hs
    obtain ⟨gs, hvol, hfld, -, -⟩ := setup_shape env g app d info hs
    obtain ⟨h1, h2, -⟩ := genShape_volLookups _ _ _ gs
    rw [hvol, h1, h2, hfld]
    exact ⟨rfl, rfl⟩
  · intro env i app d gen hg hsucc
    obtain ⟨gs, hvol, hnf, -, -, -, -, -⟩ :=
      rebuild_shape env i app d gen hg hsucc
    obtain ⟨h1, h2, -⟩ := genShape_volLookups _ _ _ gs
    rw [hvol, h1, h2, hnf]
    exact ⟨rfl, rfl⟩

/-- Witness for C7 at the concrete session: startup and one successful
rebuild. -/
theorem C7_witness :
    out0.2.1.lookupCommitted out0.2.2.volume "value" =
      some (.obj out0.1.field) ∧
    reb0.1.2.lookupCommitted reb0.2.newVolume "field" =
      some (.obj reb0.2.newField) := by
  refine ⟨(C7_value_and_field_same_handle.1 env0 g0 out0.1 out0.2.1
    out0.2.2 out0_spec).1, ?_⟩
  exact (C7_value_and_field_same_handle.2 env0 1 out0.1 out0.2.1
    out0.2.2.gen
    (setup_shape env0 g0 out0.1 out0.2.1 out0.2.2 out0_spec).1
    (by decide)).2

/-- C8: every constructed volume's color ramp consists of exactly three
color control points — blue, green, red, in that order — and exactly
two opacity control points, 0 followed by 1, identically in the startup
build and in every lookup-table-change rebuild from a state satisfying
the invariant. -/
theorem C8_fixed_color_ramp :
    (∀ env g app d info, setupScene env g = some (app, d, info) →
      d.lookupCommitted info.volume "color" = some (.obj info.gen.c) ∧
      d.payloadOf info.gen.c =
        some (.colorArray [(0, 0, 1), (0, 1, 0), (1, 0, 0)]) ∧
      d.lookupCommitted info.volume "opacity" = some (.obj info.gen.o) ∧
      d.payloadOf info.gen.o = some (.opacityArray [0, 1])) ∧
    (∀ env i app d gen, GenShape app d gen →
      (updateLacLut env i app d).2.success = true →
      (updateLacLut env i app d).1.2.lookupCommitted (updateLacLut env i app d).2.newVolume "color" =
        some (.obj (updateLacLut env i app d).2.gen.c) ∧
      (updateLacLut env i app d).1.2.payloadOf (updateLacLut env i app d).2.gen.c =
        some (.colorArray [(0, 0, 1), (0, 1, 0), (1, 0, 0)]) ∧
      (updateLacLut env i app d).1.2.lookupCommitted (updateLacLut env i app d).2.newVolume "opacity" =
        some (.obj (updateLacLut env i app d).2.gen.o) ∧
      (updateLacLut env i app d).1.2.payloadOf (updateLacLut env i app d).2.gen.o = some (.opacityArray [0, 1])) := by
  constructor
  · intro env g app d info hs
    obtain ⟨gs, hvol, -, -, -⟩ := setup_shape env g app d info hs
    obtain ⟨-, -, h3, h4, -, h6, h7⟩ := genShape_volLookups _ _ _ gs
    rw [hvol]
    exact ⟨h3, h6, h4, h7⟩
  · intro env i app d gen hg hsucc
    obtain ⟨gs, hvol, -, -, -, -, -, -⟩ :=
      rebuild_shape env i app d gen hg hsucc
    obtain ⟨-, -, h3, h4, -, h6, h7⟩ := genShape_volLookups _ _ _ gs
    rw [hvol]
    exact ⟨h3, h6, h4, h7⟩

/-- Witness for C8 at the concrete session: startup and one successful
rebuild. -/
theorem C8_witness :
    out0.2.1.payloadOf out0.2.2.gen.c =
      some (.colorArray [(0, 0, 1), (0, 1, 0), (1, 0, 0)]) ∧
    reb0.1.2.payloadOf reb0.2.gen.o = some (.opacityArray [0, 1]) := by
  refine ⟨(C8_fixed_color_ramp.1 env0 g0 out0.1 out0.2.1 out0.2.2
    out0_spec).2.1, ?_⟩
  exact (C8_fixed_color_ramp.2 env0 1 out0.1 out0.2.1 out0.2.2.gen
    (setup_shape env0 g0 out0.1 out0.2.1 out0.2.2 out0_spec).1
    (by decide)).2.2.2

/-- C9: the lookup-table rebuild always re-fetches the voxel field from
the NIfTI reader and never consults the raw source: the queried source
is the NIfTI reader in both outcomes, and the entire rebuild result is
independent of the raw reader's field. -/
theorem C9_rebuild_queries_nifti_only (env : Env) (f2 : StructuredField)
    (i : Nat) (app : AppState) (d : DState) :
    (updateLacLut env i app d).2.queried = SourceKind.nifti ∧
    updateLacLut { env with rawField := f2 } i app d =
      updateLacLut env i app d := by
  constructor
  · cases hgf : niftiGetField env app.niftiOpened
        (app.lacReader.setActiveLut i) with
    | none => simp [updateLacLut, hgf]
    | some data => simp [updateLacLut, hgf]
  · rfl

/-- C10: when no voxel source opens at startup, setup still succeeds:
it creates a transfer-function volume whose "value" and "field"
parameters hold the null handle and whose committed value range is the
zero-initialized global range, and binds that volume into the world, so
setup always ends with a one-element volume array. -/
theorem C10_no_source_setup (env : Env) (g : Globals)
    (hr : rawCond env g = false) (hn : env.niftiOpenOk = false) :
    (setupScene env g).isSome = true ∧
    ∀ app d info, setupScene env g = some (app, d, info) →
      app.field = 0 ∧
      d.lookupCommitted info.volume "value" = some (.obj 0) ∧
      d.lookupCommitted info.volume "field" = some (.obj 0) ∧
      d.lookupCommitted info.volume "valueRange" =
        some (.box1 ⟨0, 0⟩) ∧
      boundVolumes d app.world = some [info.volume] := by
  constructor
  · simp [setupScene, hr, hn]
  · intro app d info hs
    obtain ⟨gs, hvol, hfld, -, hns⟩ := setup_shape env g app d info hs
    obtain ⟨hf0, hrange, -⟩ := hns hr hn
    obtain ⟨hval, hfieldp, -, -, hvr, -, -⟩ := genShape_volLookups _ _ _ gs
    rw [hvol]
    refine ⟨?_, ?_, ?_, ?_, genShape_boundVolumes _ _ _ gs⟩
    · rw [hfld, hf0]
    · rw [hval, hf0]
    · rw [hfieldp, hf0]
    · rw [hvr, hrange]

/-- Witness for C10 at the concrete session in which neither source
opens. -/
theorem C10_witness :
    (setupScene env00 g0).isSome = true ∧ out00.1.field = 0 ∧
    out00.2.1.lookupCommitted out00.2.2.volume "value" =
      some (.obj 0) ∧
    out00.2.1.lookupCommitted out00.2.2.volume "valueRange" =
      some (.box1 ⟨0, 0⟩) ∧
    boundVolumes out00.2.1 out00.1.world = some [out00.2.2.volume] := by
  obtain ⟨h1, h2⟩ := C10_no_source_setup env00 g0 (by decide) (by decide)
  obtain ⟨a1, a2, a3, a4, a5⟩ := h2 out00.1 out00.2.1 out00.2.2 out00_spec
  exact ⟨h1, a1, a2, a4, a5⟩

end AVV
